import Mathlib

/-!
Verification development for the University of Roehampton chat-bot.

The Python sources are shallowly embedded:
pure string manipulation becomes Lean functions on `String`/`List Char`,
Python dictionaries become functions `String → Option α`,
Streamlit session state becomes an explicit `SessionState` record,
and remote calls (OpenAI completion / TTS) are abstracted by an explicit
outcome parameter, so "what is sent" and "what is returned" are visible.
Machine integers do not overflow in any modelled path, so `Int`/`Nat` are
used directly.
-/

/-- Python `str.isspace` characters relevant to `str.strip()` (ASCII whitespace:
space, tab, newline, carriage return, vertical tab, form feed). -/
def pyIsSpace (c : Char) : Bool :=
  c == ' ' || c == '\t' || c == '\n' || c == '\r' || c == Char.ofNat 11 || c == Char.ofNat 12

/-- Python `str.strip()`: remove leading and trailing whitespace. -/
def pyStrip (s : String) : String :=
  String.mk (((s.data.dropWhile pyIsSpace).reverse.dropWhile pyIsSpace).reverse)

/-- Python `str.upper()` (ASCII letters, as used for student IDs). -/
def pyUpper (s : String) : String :=
  String.mk (s.data.map Char.toUpper)

/-- Python `str.lower()` (ASCII letters, as used for PDF file names). -/
def pyLower (s : String) : String :=
  String.mk (s.data.map Char.toLower)

/-- Python `str.capitalize()`: first character uppercased, the rest lowercased. -/
def pyCapitalize (s : String) : String :=
  match s.data with
  | [] => ""
  | c :: cs => String.mk (Char.toUpper c :: cs.map Char.toLower)

/-- Contiguous-sublist test on character lists. -/
def infixOfList (sub : List Char) : List Char → Bool
  | [] => sub.isPrefixOf []
  | c :: rest => sub.isPrefixOf (c :: rest) || infixOfList sub rest

/-- Python `sub in s` substring test. -/
def pyContains (s sub : String) : Bool :=
  infixOfList sub.data s.data

/-- Digit-run parser for Python `int()`: after the first digit, single
underscores are allowed between digits, nowhere else. -/
def pyIntGo (acc : Nat) : List Char → Option Nat
  | [] => some acc
  | c :: rest =>
    if c.isDigit then pyIntGo (acc * 10 + (c.toNat - 48)) rest
    else if c = '_' then
      match rest with
      | c2 :: rest2 =>
        if c2.isDigit then pyIntGo (acc * 10 + (c2.toNat - 48)) rest2 else none
      | [] => none
    else none

/-- Nonempty digit sequence for Python `int()`. -/
def pyIntNat : List Char → Option Nat
  | [] => none
  | c :: rest => if c.isDigit then pyIntGo (c.toNat - 48) rest else none

/-- Python `int(s)` on a decimal string: surrounding whitespace is ignored,
an optional sign is allowed, and a non-numeral raises `ValueError`, which the
embedding renders as `none`. -/
def pyInt (s : String) : Option Int :=
  match (pyStrip s).data with
  | '+' :: cs => (pyIntNat cs).map Int.ofNat
  | '-' :: cs => (pyIntNat cs).map (fun n => -(Int.ofNat n))
  | cs => (pyIntNat cs).map Int.ofNat

/-- Python `str.split()` with no argument: split on whitespace runs,
discarding empty pieces; `fuel` bounds the recursion by the list length. -/
def pySplitWsGo (fuel : Nat) (cs : List Char) : List (List Char) :=
  match fuel with
  | 0 => []
  | fuel + 1 =>
    match cs.dropWhile pyIsSpace with
    | [] => []
    | c :: rest =>
      ((c :: rest).takeWhile (fun ch => !pyIsSpace ch)) ::
        pySplitWsGo fuel ((c :: rest).dropWhile (fun ch => !pyIsSpace ch))

/-- Python `s.split()`. -/
def pySplitWs (s : String) : List String :=
  (pySplitWsGo (s.data.length + 1) s.data).map String.mk
/-- Translation table from LanguageManager in localization.py (english). -/
def englishTranslations : List (String × String) := [
  ("app_title", "University of Roehampton Assistant"),
  ("app_subtitle", "Your intelligent academic companion"),
  ("welcome_message", "How can I help you today?"),
  ("powered_by", "Powered by AI"),
  ("language_selector", "Language"),
  ("voice_settings", "Voice Settings"),
  ("quick_actions", "Quick Actions"),
  ("system_status", "System Status"),
  ("student_information", "Student Information"),
  ("current_session", "Current Session"),
  ("enter_student_id", "Enter Your Student ID"),
  ("student_id_label", "Student ID:"),
  ("student_id_placeholder", "e.g., A00034131"),
  ("student_id_help", "Enter your complete Roehampton University Student ID"),
  ("enter_access_code", "Enter Your Access Code"),
  ("access_code_label", "Access Code:"),
  ("access_code_placeholder", "Enter your unique code"),
  ("access_code_help", "Enter the numerical code provided to you"),
  ("verify_button", "Verify \u2705"),
  ("back_button", "🔙 Back"),
  ("next_button", "Next \u27a1\ufe0f"),
  ("select_module", "Select Your Module"),
  ("module_label", "Module:"),
  ("programme_label", "Programme:"),
  ("choose_module", "Choose the module you need assistance with:"),
  ("documents_available", "documents available"),
  ("all_materials", "All \x7bmodule\x7d Materials"),
  ("select_button", "Select \x7bmodule\x7d"),
  ("coursework_assistance", "Coursework Assistance"),
  ("coursework_help_type", "What type of coursework help do you need?"),
  ("assignment_questions", "Assignment Questions"),
  ("assignment_questions_desc", "Help understanding assignment requirements and questions"),
  ("reading_materials", "Reading Materials"),
  ("reading_materials_desc", "Assistance with course readings and materials"),
  ("concepts_theory", "Concepts & Theory"),
  ("concepts_theory_desc", "Explanation of key concepts and theories"),
  ("exam_preparation", "Exam Preparation"),
  ("exam_preparation_desc", "Help preparing for examinations"),
  ("general_questions", "General Questions"),
  ("general_questions_desc", "Any other questions about the module"),
  ("course_assistant", "Course Assistant"),
  ("ethics_advisor", "Ethics Advisor"),
  ("you", "You"),
  ("loading_materials", "Loading your module materials..."),
  ("example_questions", "Example Questions"),
  ("chat_placeholder", "Ask me about your coursework..."),
  ("ethics_placeholder", "Ask me about ethics based on the Reforming Modernity document..."),
  ("analyzing_materials", "Analyzing your coursework materials..."),
  ("consulting_ethics", "Consulting ethics guidance..."),
  ("enable_audio", "Enable Audio Responses"),
  ("audio_help", "Toggle audio responses for accessibility"),
  ("select_voice", "Select Voice"),
  ("voice_help", "Choose the voice for audio responses"),
  ("test_voice", "Test Voice"),
  ("generating_audio", "Generating audio..."),
  ("audio_ready", "Audio ready!"),
  ("audio_error", "Failed to generate audio"),
  ("audio_disabled", "Audio responses are disabled"),
  ("new_session", "New Session"),
  ("clear_chat", "Clear Chat"),
  ("change_module", "Change Module"),
  ("start_over", "Start Over"),
  ("back_to_menu", "Back to Menu"),
  ("back_to_welcome", "Back to Welcome"),
  ("back_to_modules", "Back to Modules"),
  ("back_to_authentication", "Back to Authentication"),
  ("api_key_missing", "OpenAI API key not configured. Please check your .env file."),
  ("no_docs_error", "No document content available"),
  ("enter_question", "Please ask a question about your coursework."),
  ("enter_ethics_question", "Please enter a question."),
  ("no_modules_found", "No modules found for your account. Please contact support."),
  ("student_not_found", "Student ID \x27\x7bstudent_id\x7d\x27 not found in database"),
  ("invalid_code", "Invalid code for student \x7bstudent_id\x7d"),
  ("auth_successful", "Authentication successful"),
  ("auth_required", "Student authentication required"),
  ("student_data_missing", "Student data not loaded"),
  ("database_connected", "Database Connected"),
  ("database_not_loaded", "Database Not Loaded"),
  ("ai_service_connected", "AI Service Connected"),
  ("ai_service_unavailable", "AI Service Not Available"),
  ("ethics_document_help", "Ethics Document Help"),
  ("ethics_help_desc", "Get assistance with ethics-related documents and guidelines"),
  ("coursework_help", "University Coursework Help"),
  ("coursework_help_desc", "Get help with your specific coursework materials"),
  ("ethics_guidance", "Ethics Guidance"),
  ("ethics_document", "Ethics Document"),
  ("about_ethics_document", "About This Ethics Document"),
  ("ethics_assistant_usage", "How to Use This Ethics Assistant"),
  ("ethics_examples", "You can ask questions like:"),
  ("ethics_example_1", "What are the main ethical principles discussed in this document?"),
  ("ethics_example_2", "How does this document define ethical behavior?"),
  ("ethics_example_3", "What guidance does this provide for [specific situation]?"),
  ("ethics_example_4", "Can you summarize the key ethical concepts covered?"),
  ("ethics_tips", "Tips:"),
  ("ethics_tip_1", "Be specific about what ethical guidance you\x27re looking for"),
  ("ethics_tip_2", "Ask about concepts, principles, or situations mentioned in the document"),
  ("ethics_tip_3", "Request examples or applications of ethical principles"),
  ("step_label", "Step \x7bcurrent\x7d of \x7btotal\x7d"),
  ("welcome_features", "Feature Highlights"),
  ("feature_ethics_title", "Ethics Guidance"),
  ("feature_ethics_desc", "Access comprehensive ethics guidance based on university policies"),
  ("feature_coursework_title", "Coursework Support"),
  ("feature_coursework_desc", "Get personalized help with your module materials and assignments"),
  ("feature_secure_title", "Secure Access"),
  ("feature_secure_desc", "Student authentication ensures you only access your own materials"),
  ("feature_audio_title", "Audio Support"),
  ("feature_audio_desc", "Listen to responses with text-to-speech functionality")]

/-- Translation table from LanguageManager in localization.py (arabic). -/
def arabicTranslations : List (String × String) := [
  ("app_title", "\u0645\u0633\u0627\u0639\u062f \u062c\u0627\u0645\u0639\u0629 \u0631\u0648\u0647\u0627\u0645\u0628\u062a\u0648\u0646"),
  ("app_subtitle", "\u0631\u0641\u064a\u0642\u0643 \u0627\u0644\u0623\u0643\u0627\u062f\u064a\u0645\u064a \u0627\u0644\u0630\u0643\u064a"),
  ("welcome_message", "\u0643\u064a\u0641 \u064a\u0645\u0643\u0646\u0646\u064a \u0645\u0633\u0627\u0639\u062f\u062a\u0643 \u0627\u0644\u064a\u0648\u0645\u061f"),
  ("powered_by", "\u0645\u062f\u0639\u0648\u0645 \u0628\u0627\u0644\u0630\u0643\u0627\u0621 \u0627\u0644\u0627\u0635\u0637\u0646\u0627\u0639\u064a"),
  ("language_selector", "\u0627\u0644\u0644\u063a\u0629"),
  ("voice_settings", "\u0625\u0639\u062f\u0627\u062f\u0627\u062a \u0627\u0644\u0635\u0648\u062a"),
  ("quick_actions", "\u0627\u0644\u0625\u062c\u0631\u0627\u0621\u0627\u062a \u0627\u0644\u0633\u0631\u064a\u0639\u0629"),
  ("system_status", "\u062d\u0627\u0644\u0629 \u0627\u0644\u0646\u0638\u0627\u0645"),
  ("student_information", "\u0645\u0639\u0644\u0648\u0645\u0627\u062a \u0627\u0644\u0637\u0627\u0644\u0628"),
  ("current_session", "\u0627\u0644\u062c\u0644\u0633\u0629 \u0627\u0644\u062d\u0627\u0644\u064a\u0629"),
  ("enter_student_id", "\u0623\u062f\u062e\u0644 \u0631\u0642\u0645 \u0627\u0644\u0637\u0627\u0644\u0628 \u0627\u0644\u062c\u0627\u0645\u0639\u064a"),
  ("student_id_label", "\u0631\u0642\u0645 \u0627\u0644\u0637\u0627\u0644\u0628:"),
  ("student_id_placeholder", "\u0645\u062b\u0627\u0644: A00034131"),
  ("student_id_help", "\u0623\u062f\u062e\u0644 \u0631\u0642\u0645 \u0627\u0644\u0637\u0627\u0644\u0628 \u0627\u0644\u0643\u0627\u0645\u0644 \u0644\u062c\u0627\u0645\u0639\u0629 \u0631\u0648\u0647\u0627\u0645\u0628\u062a\u0648\u0646"),
  ("enter_access_code", "\u0623\u062f\u062e\u0644 \u0631\u0645\u0632 \u0627\u0644\u0648\u0635\u0648\u0644"),
  ("access_code_label", "\u0631\u0645\u0632 \u0627\u0644\u0648\u0635\u0648\u0644:"),
  ("access_code_placeholder", "\u0623\u062f\u062e\u0644 \u0627\u0644\u0631\u0645\u0632 \u0627\u0644\u0641\u0631\u064a\u062f \u0627\u0644\u062e\u0627\u0635 \u0628\u0643"),
  ("access_code_help", "\u0623\u062f\u062e\u0644 \u0627\u0644\u0631\u0645\u0632 \u0627\u0644\u0631\u0642\u0645\u064a \u0627\u0644\u0645\u0642\u062f\u0645 \u0644\u0643"),
  ("verify_button", "\u062a\u062d\u0642\u0642 \u2705"),
  ("back_button", "🔙 \u0631\u062c\u0648\u0639"),
  ("next_button", "\u0627\u0644\u062a\u0627\u0644\u064a \u27a1\ufe0f"),
  ("select_module", "\u0627\u062e\u062a\u0631 \u0627\u0644\u0648\u062d\u062f\u0629 \u0627\u0644\u062f\u0631\u0627\u0633\u064a\u0629"),
  ("module_label", "\u0627\u0644\u0648\u062d\u062f\u0629:"),
  ("programme_label", "\u0627\u0644\u0628\u0631\u0646\u0627\u0645\u062c:"),
  ("choose_module", "\u0627\u062e\u062a\u0631 \u0627\u0644\u0648\u062d\u062f\u0629 \u0627\u0644\u062f\u0631\u0627\u0633\u064a\u0629 \u0627\u0644\u062a\u064a \u062a\u062d\u062a\u0627\u062c \u0627\u0644\u0645\u0633\u0627\u0639\u062f\u0629 \u0641\u064a\u0647\u0627:"),
  ("documents_available", "\u0645\u0633\u062a\u0646\u062f\u0627\u062a \u0645\u062a\u0627\u062d\u0629"),
  ("all_materials", "\u062c\u0645\u064a\u0639 \u0645\u0648\u0627\u062f \x7bmodule\x7d"),
  ("select_button", "\u0627\u062e\u062a\u0631 \x7bmodule\x7d"),
  ("coursework_assistance", "\u0645\u0633\u0627\u0639\u062f\u0629 \u0627\u0644\u0648\u0627\u062c\u0628\u0627\u062a \u0627\u0644\u062f\u0631\u0627\u0633\u064a\u0629"),
  ("coursework_help_type", "\u0645\u0627 \u0646\u0648\u0639 \u0627\u0644\u0645\u0633\u0627\u0639\u062f\u0629 \u0641\u064a \u0627\u0644\u0648\u0627\u062c\u0628\u0627\u062a \u0627\u0644\u062a\u064a \u062a\u062d\u062a\u0627\u062c\u0647\u0627\u061f"),
  ("assignment_questions", "\u0623\u0633\u0626\u0644\u0629 \u0627\u0644\u0648\u0627\u062c\u0628\u0627\u062a"),
  ("assignment_questions_desc", "\u0645\u0633\u0627\u0639\u062f\u0629 \u0641\u064a \u0641\u0647\u0645 \u0645\u062a\u0637\u0644\u0628\u0627\u062a \u0648\u0623\u0633\u0626\u0644\u0629 \u0627\u0644\u0648\u0627\u062c\u0628\u0627\u062a"),
  ("reading_materials", "\u0627\u0644\u0645\u0648\u0627\u062f \u0627\u0644\u0642\u0631\u0627\u0626\u064a\u0629"),
  ("reading_materials_desc", "\u0645\u0633\u0627\u0639\u062f\u0629 \u0641\u064a \u0642\u0631\u0627\u0621\u0627\u062a \u0648\u0645\u0648\u0627\u062f \u0627\u0644\u0645\u0642\u0631\u0631"),
  ("concepts_theory", "\u0627\u0644\u0645\u0641\u0627\u0647\u064a\u0645 \u0648\u0627\u0644\u0646\u0638\u0631\u064a\u0627\u062a"),
  ("concepts_theory_desc", "\u0634\u0631\u062d \u0627\u0644\u0645\u0641\u0627\u0647\u064a\u0645 \u0648\u0627\u0644\u0646\u0638\u0631\u064a\u0627\u062a \u0627\u0644\u0623\u0633\u0627\u0633\u064a\u0629"),
  ("exam_preparation", "\u0627\u0644\u0627\u0633\u062a\u0639\u062f\u0627\u062f \u0644\u0644\u0627\u0645\u062a\u062d\u0627\u0646\u0627\u062a"),
  ("exam_preparation_desc", "\u0645\u0633\u0627\u0639\u062f\u0629 \u0641\u064a \u0627\u0644\u0627\u0633\u062a\u0639\u062f\u0627\u062f \u0644\u0644\u0627\u0645\u062a\u062d\u0627\u0646\u0627\u062a"),
  ("general_questions", "\u0623\u0633\u0626\u0644\u0629 \u0639\u0627\u0645\u0629"),
  ("general_questions_desc", "\u0623\u064a \u0623\u0633\u0626\u0644\u0629 \u0623\u062e\u0631\u0649 \u062d\u0648\u0644 \u0627\u0644\u0648\u062d\u062f\u0629 \u0627\u0644\u062f\u0631\u0627\u0633\u064a\u0629"),
  ("course_assistant", "\u0645\u0633\u0627\u0639\u062f \u0627\u0644\u0645\u0642\u0631\u0631"),
  ("ethics_advisor", "\u0645\u0633\u062a\u0634\u0627\u0631 \u0627\u0644\u0623\u062e\u0644\u0627\u0642"),
  ("you", "\u0623\u0646\u062a"),
  ("loading_materials", "\u062c\u0627\u0631\u064d \u062a\u062d\u0645\u064a\u0644 \u0645\u0648\u0627\u062f \u0627\u0644\u0648\u062d\u062f\u0629 \u0627\u0644\u062f\u0631\u0627\u0633\u064a\u0629..."),
  ("example_questions", "\u0623\u0645\u062b\u0644\u0629 \u0639\u0644\u0649 \u0627\u0644\u0623\u0633\u0626\u0644\u0629"),
  ("chat_placeholder", "\u0627\u0633\u0623\u0644\u0646\u064a \u0639\u0646 \u0648\u0627\u062c\u0628\u0627\u062a\u0643 \u0627\u0644\u062f\u0631\u0627\u0633\u064a\u0629..."),
  ("ethics_placeholder", "\u0627\u0633\u0623\u0644\u0646\u064a \u0639\u0646 \u0627\u0644\u0623\u062e\u0644\u0627\u0642 \u0628\u0646\u0627\u0621\u064b \u0639\u0644\u0649 \u0648\u062b\u064a\u0642\u0629 \u0625\u0635\u0644\u0627\u062d \u0627\u0644\u062d\u062f\u0627\u062b\u0629..."),
  ("analyzing_materials", "\u062c\u0627\u0631\u064d \u062a\u062d\u0644\u064a\u0644 \u0645\u0648\u0627\u062f \u0648\u0627\u062c\u0628\u0627\u062a\u0643 \u0627\u0644\u062f\u0631\u0627\u0633\u064a\u0629..."),
  ("consulting_ethics", "\u062c\u0627\u0631\u064d \u0627\u0633\u062a\u0634\u0627\u0631\u0629 \u0627\u0644\u062a\u0648\u062c\u064a\u0647 \u0627\u0644\u0623\u062e\u0644\u0627\u0642\u064a..."),
  ("enable_audio", "\u062a\u0641\u0639\u064a\u0644 \u0627\u0644\u0627\u0633\u062a\u062c\u0627\u0628\u0627\u062a \u0627\u0644\u0635\u0648\u062a\u064a\u0629"),
  ("audio_help", "\u062a\u0628\u062f\u064a\u0644 \u0627\u0644\u0627\u0633\u062a\u062c\u0627\u0628\u0627\u062a \u0627\u0644\u0635\u0648\u062a\u064a\u0629 \u0644\u0625\u0645\u0643\u0627\u0646\u064a\u0629 \u0627\u0644\u0648\u0635\u0648\u0644"),
  ("select_voice", "\u0627\u062e\u062a\u0631 \u0627\u0644\u0635\u0648\u062a"),
  ("voice_help", "\u0627\u062e\u062a\u0631 \u0627\u0644\u0635\u0648\u062a \u0644\u0644\u0627\u0633\u062a\u062c\u0627\u0628\u0627\u062a \u0627\u0644\u0635\u0648\u062a\u064a\u0629"),
  ("test_voice", "\u0627\u062e\u062a\u0628\u0627\u0631 \u0627\u0644\u0635\u0648\u062a"),
  ("generating_audio", "\u062c\u0627\u0631\u064d \u0625\u0646\u0634\u0627\u0621 \u0627\u0644\u0635\u0648\u062a..."),
  ("audio_ready", "\u0627\u0644\u0635\u0648\u062a \u062c\u0627\u0647\u0632!"),
  ("audio_error", "\u0641\u0634\u0644 \u0641\u064a \u0625\u0646\u0634\u0627\u0621 \u0627\u0644\u0635\u0648\u062a"),
  ("audio_disabled", "\u0627\u0644\u0627\u0633\u062a\u062c\u0627\u0628\u0627\u062a \u0627\u0644\u0635\u0648\u062a\u064a\u0629 \u0645\u0639\u0637\u0644\u0629"),
  ("new_session", "\u062c\u0644\u0633\u0629 \u062c\u062f\u064a\u062f\u0629"),
  ("clear_chat", "\u0645\u0633\u062d \u0627\u0644\u0645\u062d\u0627\u062f\u062b\u0629"),
  ("change_module", "\u062a\u063a\u064a\u064a\u0631 \u0627\u0644\u0648\u062d\u062f\u0629"),
  ("start_over", "\u0627\u0644\u0628\u062f\u0621 \u0645\u0646 \u062c\u062f\u064a\u062f"),
  ("back_to_menu", "\u0627\u0644\u0639\u0648\u062f\u0629 \u0644\u0644\u0642\u0627\u0626\u0645\u0629"),
  ("back_to_welcome", "\u0627\u0644\u0639\u0648\u062f\u0629 \u0644\u0644\u062a\u0631\u062d\u064a\u0628"),
  ("back_to_modules", "\u0627\u0644\u0639\u0648\u062f\u0629 \u0644\u0644\u0648\u062d\u062f\u0627\u062a"),
  ("back_to_authentication", "\u0627\u0644\u0639\u0648\u062f\u0629 \u0644\u0644\u0645\u0635\u0627\u062f\u0642\u0629"),
  ("api_key_missing", "\u0645\u0641\u062a\u0627\u062d OpenAI API \u063a\u064a\u0631 \u0645\u0643\u0648\u0651\u0646. \u064a\u0631\u062c\u0649 \u0627\u0644\u062a\u062d\u0642\u0642 \u0645\u0646 \u0645\u0644\u0641 .env \u0627\u0644\u062e\u0627\u0635 \u0628\u0643."),
  ("no_docs_error", "\u0644\u0627 \u064a\u0648\u062c\u062f \u0645\u062d\u062a\u0648\u0649 \u0648\u062b\u064a\u0642\u0629 \u0645\u062a\u0627\u062d"),
  ("enter_question", "\u064a\u0631\u062c\u0649 \u0637\u0631\u062d \u0633\u0624\u0627\u0644 \u062d\u0648\u0644 \u0648\u0627\u062c\u0628\u0627\u062a\u0643 \u0627\u0644\u062f\u0631\u0627\u0633\u064a\u0629."),
  ("enter_ethics_question", "\u064a\u0631\u062c\u0649 \u0625\u062f\u062e\u0627\u0644 \u0633\u0624\u0627\u0644."),
  ("no_modules_found", "\u0644\u0645 \u064a\u062a\u0645 \u0627\u0644\u0639\u062b\u0648\u0631 \u0639\u0644\u0649 \u0648\u062d\u062f\u0627\u062a \u0644\u062d\u0633\u0627\u0628\u0643. \u064a\u0631\u062c\u0649 \u0627\u0644\u0627\u062a\u0635\u0627\u0644 \u0628\u0627\u0644\u062f\u0639\u0645."),
  ("student_not_found", "\u0631\u0642\u0645 \u0627\u0644\u0637\u0627\u0644\u0628 \x27\x7bstudent_id\x7d\x27 \u063a\u064a\u0631 \u0645\u0648\u062c\u0648\u062f \u0641\u064a \u0642\u0627\u0639\u062f\u0629 \u0627\u0644\u0628\u064a\u0627\u0646\u0627\u062a"),
  ("invalid_code", "\u0631\u0645\u0632 \u063a\u064a\u0631 \u0635\u062d\u064a\u062d \u0644\u0644\u0637\u0627\u0644\u0628 \x7bstudent_id\x7d"),
  ("auth_successful", "\u0627\u0644\u0645\u0635\u0627\u062f\u0642\u0629 \u0646\u0627\u062c\u062d\u0629"),
  ("auth_required", "\u0645\u0635\u0627\u062f\u0642\u0629 \u0627\u0644\u0637\u0627\u0644\u0628 \u0645\u0637\u0644\u0648\u0628\u0629"),
  ("student_data_missing", "\u0628\u064a\u0627\u0646\u0627\u062a \u0627\u0644\u0637\u0627\u0644\u0628 \u063a\u064a\u0631 \u0645\u062d\u0645\u0644\u0629"),
  ("database_connected", "\u0642\u0627\u0639\u062f\u0629 \u0627\u0644\u0628\u064a\u0627\u0646\u0627\u062a \u0645\u062a\u0635\u0644\u0629"),
  ("database_not_loaded", "\u0642\u0627\u0639\u062f\u0629 \u0627\u0644\u0628\u064a\u0627\u0646\u0627\u062a \u063a\u064a\u0631 \u0645\u062d\u0645\u0644\u0629"),
  ("ai_service_connected", "\u062e\u062f\u0645\u0629 \u0627\u0644\u0630\u0643\u0627\u0621 \u0627\u0644\u0627\u0635\u0637\u0646\u0627\u0639\u064a \u0645\u062a\u0635\u0644\u0629"),
  ("ai_service_unavailable", "\u062e\u062f\u0645\u0629 \u0627\u0644\u0630\u0643\u0627\u0621 \u0627\u0644\u0627\u0635\u0637\u0646\u0627\u0639\u064a \u063a\u064a\u0631 \u0645\u062a\u0627\u062d\u0629"),
  ("ethics_document_help", "\u0645\u0633\u0627\u0639\u062f\u0629 \u0627\u0644\u0648\u062b\u0627\u0626\u0642 \u0627\u0644\u0623\u062e\u0644\u0627\u0642\u064a\u0629"),
  ("ethics_help_desc", "\u0627\u062d\u0635\u0644 \u0639\u0644\u0649 \u0645\u0633\u0627\u0639\u062f\u0629 \u0641\u064a \u0627\u0644\u0648\u062b\u0627\u0626\u0642 \u0648\u0627\u0644\u0625\u0631\u0634\u0627\u062f\u0627\u062a \u0627\u0644\u0645\u062a\u0639\u0644\u0642\u0629 \u0628\u0627\u0644\u0623\u062e\u0644\u0627\u0642"),
  ("coursework_help", "\u0645\u0633\u0627\u0639\u062f\u0629 \u0627\u0644\u0648\u0627\u062c\u0628\u0627\u062a \u0627\u0644\u062c\u0627\u0645\u0639\u064a\u0629"),
  ("coursework_help_desc", "\u0627\u062d\u0635\u0644 \u0639\u0644\u0649 \u0645\u0633\u0627\u0639\u062f\u0629 \u0641\u064a \u0645\u0648\u0627\u062f \u0648\u0627\u062c\u0628\u0627\u062a\u0643 \u0627\u0644\u0645\u062d\u062f\u062f\u0629"),
  ("ethics_guidance", "\u0627\u0644\u062a\u0648\u062c\u064a\u0647 \u0627\u0644\u0623\u062e\u0644\u0627\u0642\u064a"),
  ("ethics_document", "\u0627\u0644\u0648\u062b\u064a\u0642\u0629 \u0627\u0644\u0623\u062e\u0644\u0627\u0642\u064a\u0629"),
  ("about_ethics_document", "\u062d\u0648\u0644 \u0647\u0630\u0647 \u0627\u0644\u0648\u062b\u064a\u0642\u0629 \u0627\u0644\u0623\u062e\u0644\u0627\u0642\u064a\u0629"),
  ("ethics_assistant_usage", "\u0643\u064a\u0641\u064a\u0629 \u0627\u0633\u062a\u062e\u062f\u0627\u0645 \u0645\u0633\u0627\u0639\u062f \u0627\u0644\u0623\u062e\u0644\u0627\u0642 \u0647\u0630\u0627"),
  ("ethics_examples", "\u064a\u0645\u0643\u0646\u0643 \u0637\u0631\u062d \u0623\u0633\u0626\u0644\u0629 \u0645\u062b\u0644:"),
  ("ethics_example_1", "\u0645\u0627 \u0647\u064a \u0627\u0644\u0645\u0628\u0627\u062f\u0626 \u0627\u0644\u0623\u062e\u0644\u0627\u0642\u064a\u0629 \u0627\u0644\u0631\u0626\u064a\u0633\u064a\u0629 \u0627\u0644\u0645\u0646\u0627\u0642\u0634\u0629 \u0641\u064a \u0647\u0630\u0647 \u0627\u0644\u0648\u062b\u064a\u0642\u0629\u061f"),
  ("ethics_example_2", "\u0643\u064a\u0641 \u062a\u0639\u0631\u0651\u0641 \u0647\u0630\u0647 \u0627\u0644\u0648\u062b\u064a\u0642\u0629 \u0627\u0644\u0633\u0644\u0648\u0643 \u0627\u0644\u0623\u062e\u0644\u0627\u0642\u064a\u061f"),
  ("ethics_example_3", "\u0645\u0627 \u0627\u0644\u062a\u0648\u062c\u064a\u0647 \u0627\u0644\u0630\u064a \u062a\u0642\u062f\u0645\u0647 \u0647\u0630\u0647 \u0627\u0644\u0648\u062b\u064a\u0642\u0629 \u0644\u0640 [\u0645\u0648\u0642\u0641 \u0645\u062d\u062f\u062f]\u061f"),
  ("ethics_example_4", "\u0647\u0644 \u064a\u0645\u0643\u0646\u0643 \u062a\u0644\u062e\u064a\u0635 \u0627\u0644\u0645\u0641\u0627\u0647\u064a\u0645 \u0627\u0644\u0623\u062e\u0644\u0627\u0642\u064a\u0629 \u0627\u0644\u0631\u0626\u064a\u0633\u064a\u0629 \u0627\u0644\u0645\u063a\u0637\u0627\u0629\u061f"),
  ("ethics_tips", "\u0646\u0635\u0627\u0626\u062d:"),
  ("ethics_tip_1", "\u0643\u0646 \u0645\u062d\u062f\u062f\u0627\u064b \u062d\u0648\u0644 \u0627\u0644\u062a\u0648\u062c\u064a\u0647 \u0627\u0644\u0623\u062e\u0644\u0627\u0642\u064a \u0627\u0644\u0630\u064a \u062a\u0628\u062d\u062b \u0639\u0646\u0647"),
  ("ethics_tip_2", "\u0627\u0633\u0623\u0644 \u0639\u0646 \u0627\u0644\u0645\u0641\u0627\u0647\u064a\u0645 \u0623\u0648 \u0627\u0644\u0645\u0628\u0627\u062f\u0626 \u0623\u0648 \u0627\u0644\u0645\u0648\u0627\u0642\u0641 \u0627\u0644\u0645\u0630\u0643\u0648\u0631\u0629 \u0641\u064a \u0627\u0644\u0648\u062b\u064a\u0642\u0629"),
  ("ethics_tip_3", "\u0627\u0637\u0644\u0628 \u0623\u0645\u062b\u0644\u0629 \u0623\u0648 \u062a\u0637\u0628\u064a\u0642\u0627\u062a \u0644\u0644\u0645\u0628\u0627\u062f\u0626 \u0627\u0644\u0623\u062e\u0644\u0627\u0642\u064a\u0629"),
  ("step_label", "\u0627\u0644\u062e\u0637\u0648\u0629 \x7bcurrent\x7d \u0645\u0646 \x7btotal\x7d"),
  ("welcome_features", "\u0623\u0628\u0631\u0632 \u0627\u0644\u0645\u064a\u0632\u0627\u062a"),
  ("feature_ethics_title", "\u0627\u0644\u062a\u0648\u062c\u064a\u0647 \u0627\u0644\u0623\u062e\u0644\u0627\u0642\u064a"),
  ("feature_ethics_desc", "\u0627\u0644\u0648\u0635\u0648\u0644 \u0625\u0644\u0649 \u0627\u0644\u062a\u0648\u062c\u064a\u0647 \u0627\u0644\u0623\u062e\u0644\u0627\u0642\u064a \u0627\u0644\u0634\u0627\u0645\u0644 \u0627\u0644\u0642\u0627\u0626\u0645 \u0639\u0644\u0649 \u0633\u064a\u0627\u0633\u0627\u062a \u0627\u0644\u062c\u0627\u0645\u0639\u0629"),
  ("feature_coursework_title", "\u062f\u0639\u0645 \u0627\u0644\u0648\u0627\u062c\u0628\u0627\u062a \u0627\u0644\u062f\u0631\u0627\u0633\u064a\u0629"),
  ("feature_coursework_desc", "\u0627\u062d\u0635\u0644 \u0639\u0644\u0649 \u0645\u0633\u0627\u0639\u062f\u0629 \u0634\u062e\u0635\u064a\u0629 \u0641\u064a \u0645\u0648\u0627\u062f \u0648\u062d\u062f\u0627\u062a\u0643 \u0648\u0648\u0627\u062c\u0628\u0627\u062a\u0643"),
  ("feature_secure_title", "\u0648\u0635\u0648\u0644 \u0622\u0645\u0646"),
  ("feature_secure_desc", "\u0645\u0635\u0627\u062f\u0642\u0629 \u0627\u0644\u0637\u0627\u0644\u0628 \u062a\u0636\u0645\u0646 \u0648\u0635\u0648\u0644\u0643 \u0641\u0642\u0637 \u0625\u0644\u0649 \u0645\u0648\u0627\u062f\u0643 \u0627\u0644\u062e\u0627\u0635\u0629"),
  ("feature_audio_title", "\u062f\u0639\u0645 \u0635\u0648\u062a\u064a"),
  ("feature_audio_desc", "\u0627\u0633\u062a\u0645\u0639 \u0625\u0644\u0649 \u0627\u0644\u0631\u062f\u0648\u062f \u0628\u0627\u0633\u062a\u062e\u062f\u0627\u0645 \u0648\u0638\u064a\u0641\u0629 \u0627\u0644\u0646\u0635 \u0625\u0644\u0649 \u0643\u0644\u0627\u0645")]

/-- Translation table from LanguageManager in localization.py (french). -/
def frenchTranslations : List (String × String) := [
  ("app_title", "Assistant Universit\u00e9 de Roehampton"),
  ("app_subtitle", "Votre compagnon acad\u00e9mique intelligent"),
  ("welcome_message", "Comment puis-je vous aider aujourd\x27hui ?"),
  ("powered_by", "Aliment\u00e9 par IA"),
  ("language_selector", "Langue"),
  ("voice_settings", "Param\u00e8tres Vocaux"),
  ("quick_actions", "Actions Rapides"),
  ("system_status", "\u00c9tat du Syst\u00e8me"),
  ("student_information", "Informations \u00c9tudiant"),
  ("current_session", "Session Actuelle"),
  ("enter_student_id", "Entrez Votre ID \u00c9tudiant"),
  ("student_id_label", "ID \u00c9tudiant :"),
  ("student_id_placeholder", "ex: A00034131"),
  ("student_id_help", "Entrez votre ID complet d\x27\u00e9tudiant de l\x27Universit\u00e9 de Roehampton"),
  ("enter_access_code", "Entrez Votre Code d\x27Acc\u00e8s"),
  ("access_code_label", "Code d\x27Acc\u00e8s :"),
  ("access_code_placeholder", "Entrez votre code unique"),
  ("access_code_help", "Entrez le code num\u00e9rique qui vous a \u00e9t\u00e9 fourni"),
  ("verify_button", "V\u00e9rifier \u2705"),
  ("back_button", "🔙 Retour"),
  ("next_button", "Suivant \u27a1\ufe0f"),
  ("select_module", "S\u00e9lectionnez Votre Module"),
  ("module_label", "Module :"),
  ("programme_label", "Programme :"),
  ("choose_module", "Choisissez le module pour lequel vous avez besoin d\x27aide :"),
  ("documents_available", "documents disponibles"),
  ("all_materials", "Tous les Mat\u00e9riaux \x7bmodule\x7d"),
  ("select_button", "S\u00e9lectionner \x7bmodule\x7d"),
  ("coursework_assistance", "Assistance aux Devoirs"),
  ("coursework_help_type", "Quel type d\x27aide aux devoirs avez-vous besoin ?"),
  ("assignment_questions", "Questions d\x27Assignation"),
  ("assignment_questions_desc", "Aide pour comprendre les exigences et questions d\x27assignation"),
  ("reading_materials", "Mat\u00e9riaux de Lecture"),
  ("reading_materials_desc", "Assistance avec les lectures et mat\u00e9riaux de cours"),
  ("concepts_theory", "Concepts et Th\u00e9orie"),
  ("concepts_theory_desc", "Explication des concepts et th\u00e9ories cl\u00e9s"),
  ("exam_preparation", "Pr\u00e9paration aux Examens"),
  ("exam_preparation_desc", "Aide pour se pr\u00e9parer aux examens"),
  ("general_questions", "Questions G\u00e9n\u00e9rales"),
  ("general_questions_desc", "Toute autre question concernant le module"),
  ("course_assistant", "Assistant de Cours"),
  ("ethics_advisor", "Conseiller en \u00c9thique"),
  ("you", "Vous"),
  ("loading_materials", "Chargement de vos mat\u00e9riaux de module..."),
  ("example_questions", "Exemples de Questions"),
  ("chat_placeholder", "Posez-moi des questions sur vos devoirs..."),
  ("ethics_placeholder", "Posez-moi des questions sur l\x27\u00e9thique bas\u00e9es sur le document Reforming Modernity..."),
  ("analyzing_materials", "Analyse de vos mat\u00e9riaux de devoirs..."),
  ("consulting_ethics", "Consultation des conseils \u00e9thiques..."),
  ("enable_audio", "Activer les R\u00e9ponses Audio"),
  ("audio_help", "Basculer les r\u00e9ponses audio pour l\x27accessibilit\u00e9"),
  ("select_voice", "S\u00e9lectionner la Voix"),
  ("voice_help", "Choisissez la voix pour les r\u00e9ponses audio"),
  ("test_voice", "Tester la Voix"),
  ("generating_audio", "G\u00e9n\u00e9ration audio..."),
  ("audio_ready", "Audio pr\u00eat !"),
  ("audio_error", "\u00c9chec de la g\u00e9n\u00e9ration audio"),
  ("audio_disabled", "R\u00e9ponses audio d\u00e9sactiv\u00e9es"),
  ("new_session", "Nouvelle Session"),
  ("clear_chat", "Effacer le Chat"),
  ("change_module", "Changer de Module"),
  ("start_over", "Recommencer"),
  ("back_to_menu", "Retour au Menu"),
  ("back_to_welcome", "Retour \u00e0 l\x27Accueil"),
  ("back_to_modules", "Retour aux Modules"),
  ("back_to_authentication", "Retour \u00e0 l\x27Authentification"),
  ("api_key_missing", "Cl\u00e9 API OpenAI non configur\u00e9e. Veuillez v\u00e9rifier votre fichier .env."),
  ("no_docs_error", "Aucun contenu de document disponible"),
  ("enter_question", "Veuillez poser une question sur vos devoirs."),
  ("enter_ethics_question", "Veuillez entrer une question."),
  ("no_modules_found", "Aucun module trouv\u00e9 pour votre compte. Veuillez contacter le support."),
  ("student_not_found", "ID \u00e9tudiant \x27\x7bstudent_id\x7d\x27 non trouv\u00e9 dans la base de donn\u00e9es"),
  ("invalid_code", "Code invalide pour l\x27\u00e9tudiant \x7bstudent_id\x7d"),
  ("auth_successful", "Authentification r\u00e9ussie"),
  ("auth_required", "Authentification \u00e9tudiant requise"),
  ("student_data_missing", "Donn\u00e9es \u00e9tudiant non charg\u00e9es"),
  ("database_connected", "Base de Donn\u00e9es Connect\u00e9e"),
  ("database_not_loaded", "Base de Donn\u00e9es Non Charg\u00e9e"),
  ("ai_service_connected", "Service IA Connect\u00e9"),
  ("ai_service_unavailable", "Service IA Non Disponible"),
  ("ethics_document_help", "Aide Documents \u00c9thiques"),
  ("ethics_help_desc", "Obtenez de l\x27aide avec les documents et directives li\u00e9s \u00e0 l\x27\u00e9thique"),
  ("coursework_help", "Aide Devoirs Universitaires"),
  ("coursework_help_desc", "Obtenez de l\x27aide avec vos mat\u00e9riaux de devoirs sp\u00e9cifiques"),
  ("ethics_guidance", "Conseils \u00c9thiques"),
  ("ethics_document", "Document \u00c9thique"),
  ("about_ethics_document", "\u00c0 Propos de ce Document \u00c9thique"),
  ("ethics_assistant_usage", "Comment Utiliser cet Assistant \u00c9thique"),
  ("ethics_examples", "Vous pouvez poser des questions comme :"),
  ("ethics_example_1", "Quels sont les principaux principes \u00e9thiques discut\u00e9s dans ce document ?"),
  ("ethics_example_2", "Comment ce document d\u00e9finit-il le comportement \u00e9thique ?"),
  ("ethics_example_3", "Quels conseils cela fournit-il pour [situation sp\u00e9cifique] ?"),
  ("ethics_example_4", "Pouvez-vous r\u00e9sumer les concepts \u00e9thiques cl\u00e9s couverts ?"),
  ("ethics_tips", "Conseils :"),
  ("ethics_tip_1", "Soyez sp\u00e9cifique sur les conseils \u00e9thiques que vous recherchez"),
  ("ethics_tip_2", "Posez des questions sur les concepts, principes ou situations mentionn\u00e9s dans le document"),
  ("ethics_tip_3", "Demandez des exemples ou applications de principes \u00e9thiques"),
  ("step_label", "\u00c9tape \x7bcurrent\x7d sur \x7btotal\x7d"),
  ("welcome_features", "Points Forts des Fonctionnalit\u00e9s"),
  ("feature_ethics_title", "Conseils \u00c9thiques"),
  ("feature_ethics_desc", "Acc\u00e9dez \u00e0 des conseils \u00e9thiques complets bas\u00e9s sur les politiques universitaires"),
  ("feature_coursework_title", "Support aux Devoirs"),
  ("feature_coursework_desc", "Obtenez une aide personnalis\u00e9e avec vos mat\u00e9riaux de module et devoirs"),
  ("feature_secure_title", "Acc\u00e8s S\u00e9curis\u00e9"),
  ("feature_secure_desc", "L\x27authentification \u00e9tudiant garantit que vous n\x27acc\u00e9dez qu\x27\u00e0 vos propres mat\u00e9riaux"),
  ("feature_audio_title", "Support Audio"),
  ("feature_audio_desc", "\u00c9coutez les r\u00e9ponses avec la fonctionnalit\u00e9 de synth\u00e8se vocale")]

/-- Translation table from LanguageManager in localization.py (spanish). -/
def spanishTranslations : List (String × String) := [
  ("app_title", "Asistente Universidad de Roehampton"),
  ("app_subtitle", "Tu compa\u00f1ero acad\u00e9mico inteligente"),
  ("welcome_message", "\u00bfC\u00f3mo puedo ayudarte hoy?"),
  ("powered_by", "Impulsado por IA"),
  ("language_selector", "Idioma"),
  ("voice_settings", "Configuraci\u00f3n de Voz"),
  ("quick_actions", "Acciones R\u00e1pidas"),
  ("system_status", "Estado del Sistema"),
  ("student_information", "Informaci\u00f3n del Estudiante"),
  ("current_session", "Sesi\u00f3n Actual"),
  ("enter_student_id", "Ingresa tu ID de Estudiante"),
  ("student_id_label", "ID de Estudiante:"),
  ("student_id_placeholder", "ej: A00034131"),
  ("student_id_help", "Ingresa tu ID completo de estudiante de la Universidad de Roehampton"),
  ("enter_access_code", "Ingresa tu C\u00f3digo de Acceso"),
  ("access_code_label", "C\u00f3digo de Acceso:"),
  ("access_code_placeholder", "Ingresa tu c\u00f3digo \u00fanico"),
  ("access_code_help", "Ingresa el c\u00f3digo num\u00e9rico que se te proporcion\u00f3"),
  ("verify_button", "Verificar \u2705"),
  ("back_button", "🔙 Atr\u00e1s"),
  ("next_button", "Siguiente \u27a1\ufe0f"),
  ("select_module", "Selecciona tu M\u00f3dulo"),
  ("module_label", "M\u00f3dulo:"),
  ("programme_label", "Programa:"),
  ("choose_module", "Elige el m\u00f3dulo con el que necesitas ayuda:"),
  ("documents_available", "documentos disponibles"),
  ("all_materials", "Todos los Materiales de \x7bmodule\x7d"),
  ("select_button", "Seleccionar \x7bmodule\x7d"),
  ("coursework_assistance", "Asistencia con Tareas"),
  ("coursework_help_type", "\u00bfQu\u00e9 tipo de ayuda con tareas necesitas?"),
  ("assignment_questions", "Preguntas de Asignaci\u00f3n"),
  ("assignment_questions_desc", "Ayuda para entender los requisitos y preguntas de asignaci\u00f3n"),
  ("reading_materials", "Materiales de Lectura"),
  ("reading_materials_desc", "Asistencia con lecturas y materiales del curso"),
  ("concepts_theory", "Conceptos y Teor\u00eda"),
  ("concepts_theory_desc", "Explicaci\u00f3n de conceptos y teor\u00edas clave"),
  ("exam_preparation", "Preparaci\u00f3n para Ex\u00e1menes"),
  ("exam_preparation_desc", "Ayuda para prepararse para ex\u00e1menes"),
  ("general_questions", "Preguntas Generales"),
  ("general_questions_desc", "Cualquier otra pregunta sobre el m\u00f3dulo"),
  ("course_assistant", "Asistente del Curso"),
  ("ethics_advisor", "Asesor de \u00c9tica"),
  ("you", "T\u00fa"),
  ("loading_materials", "Cargando tus materiales del m\u00f3dulo..."),
  ("example_questions", "Preguntas de Ejemplo"),
  ("chat_placeholder", "Preg\u00fantame sobre tus tareas..."),
  ("ethics_placeholder", "Preg\u00fantame sobre \u00e9tica basado en el documento Reforming Modernity..."),
  ("analyzing_materials", "Analizando tus materiales de tareas..."),
  ("consulting_ethics", "Consultando orientaci\u00f3n \u00e9tica..."),
  ("enable_audio", "Habilitar Respuestas de Audio"),
  ("audio_help", "Alternar respuestas de audio para accesibilidad"),
  ("select_voice", "Seleccionar Voz"),
  ("voice_help", "Elige la voz para las respuestas de audio"),
  ("test_voice", "Probar Voz"),
  ("generating_audio", "Generando audio..."),
  ("audio_ready", "\u00a1Audio listo!"),
  ("audio_error", "Error al generar audio"),
  ("audio_disabled", "Respuestas de audio deshabilitadas"),
  ("new_session", "Nueva Sesi\u00f3n"),
  ("clear_chat", "Limpiar Chat"),
  ("change_module", "Cambiar M\u00f3dulo"),
  ("start_over", "Empezar de Nuevo"),
  ("back_to_menu", "Volver al Men\u00fa"),
  ("back_to_welcome", "Volver al Inicio"),
  ("back_to_modules", "Volver a M\u00f3dulos"),
  ("back_to_authentication", "Volver a Autenticaci\u00f3n"),
  ("api_key_missing", "Clave API de OpenAI no configurada. Por favor verifica tu archivo .env."),
  ("no_docs_error", "No hay contenido de documento disponible"),
  ("enter_question", "Por favor haz una pregunta sobre tus tareas."),
  ("enter_ethics_question", "Por favor ingresa una pregunta."),
  ("no_modules_found", "No se encontraron m\u00f3dulos para tu cuenta. Por favor contacta soporte."),
  ("student_not_found", "ID de estudiante \x27\x7bstudent_id\x7d\x27 no encontrado en la base de datos"),
  ("invalid_code", "C\u00f3digo inv\u00e1lido para el estudiante \x7bstudent_id\x7d"),
  ("auth_successful", "Autenticaci\u00f3n exitosa"),
  ("auth_required", "Autenticaci\u00f3n de estudiante requerida"),
  ("student_data_missing", "Datos del estudiante no cargados"),
  ("database_connected", "Base de Datos Conectada"),
  ("database_not_loaded", "Base de Datos No Cargada"),
  ("ai_service_connected", "Servicio IA Conectado"),
  ("ai_service_unavailable", "Servicio IA No Disponible"),
  ("ethics_document_help", "Ayuda con Documentos de \u00c9tica"),
  ("ethics_help_desc", "Obt\u00e9n asistencia con documentos y directrices relacionados con \u00e9tica"),
  ("coursework_help", "Ayuda con Tareas Universitarias"),
  ("coursework_help_desc", "Obt\u00e9n ayuda con tus materiales de tareas espec\u00edficos"),
  ("ethics_guidance", "Orientaci\u00f3n \u00c9tica"),
  ("ethics_document", "Documento de \u00c9tica"),
  ("about_ethics_document", "Acerca de este Documento de \u00c9tica"),
  ("ethics_assistant_usage", "C\u00f3mo Usar este Asistente de \u00c9tica"),
  ("ethics_examples", "Puedes hacer preguntas como:"),
  ("ethics_example_1", "\u00bfCu\u00e1les son los principales principios \u00e9ticos discutidos en este documento?"),
  ("ethics_example_2", "\u00bfC\u00f3mo define este documento el comportamiento \u00e9tico?"),
  ("ethics_example_3", "\u00bfQu\u00e9 orientaci\u00f3n proporciona esto para [situaci\u00f3n espec\u00edfica]?"),
  ("ethics_example_4", "\u00bfPuedes resumir los conceptos \u00e9ticos clave cubiertos?"),
  ("ethics_tips", "Consejos:"),
  ("ethics_tip_1", "S\u00e9 espec\u00edfico sobre la orientaci\u00f3n \u00e9tica que buscas"),
  ("ethics_tip_2", "Pregunta sobre conceptos, principios o situaciones mencionados en el documento"),
  ("ethics_tip_3", "Solicita ejemplos o aplicaciones de principios \u00e9ticos"),
  ("step_label", "Paso \x7bcurrent\x7d de \x7btotal\x7d"),
  ("welcome_features", "Caracter\u00edsticas Destacadas"),
  ("feature_ethics_title", "Orientaci\u00f3n \u00c9tica"),
  ("feature_ethics_desc", "Accede a orientaci\u00f3n \u00e9tica integral basada en pol\u00edticas universitarias"),
  ("feature_coursework_title", "Soporte de Tareas"),
  ("feature_coursework_desc", "Obt\u00e9n ayuda personalizada con tus materiales de m\u00f3dulo y tareas"),
  ("feature_secure_title", "Acceso Seguro"),
  ("feature_secure_desc", "La autenticaci\u00f3n de estudiante asegura que solo accedas a tus propios materiales"),
  ("feature_audio_title", "Soporte de Audio"),
  ("feature_audio_desc", "Escucha respuestas con funcionalidad de texto a voz")]

/-- Literal HTML before the base64 payload in create_audio_player (audio_manager.py). -/
def audioPlayerPrefix : String := "\n        <div class=\"audio-player-container\" style=\"margin: 10px 0;\">\n            <div class=\"audio-controls\" style=\"\n                background: linear-gradient(135deg, #667eea 0%, #764ba2 100%);\n                border-radius: 25px;\n                padding: 10px 20px;\n                display: flex;\n                align-items: center;\n                gap: 15px;\n                box-shadow: 0 4px 15px rgba(102,126,234,0.3);\n            \">\n                <div style=\"color: white; font-weight: 500; display: flex; align-items: center; gap: 8px;\">\n                    \u00f0\u0178\u201d\u0160 <span style=\"font-size: 14px;\">Audio Response</span>\n                </div>\n                <audio controls style=\"\n                    height: 35px;\n                    border-radius: 17px;\n                    outline: none;\n                    flex: 1;\n                    min-width: 200px;\n                \">\n                    <source src=\"data:audio/mp3;base64,"

/-- Literal HTML after the base64 payload in create_audio_player (audio_manager.py). -/
def audioPlayerSuffix : String := "\" type=\"audio/mpeg\">\n                    Your browser does not support audio playback.\n                </audio>\n            </div>\n        </div>\n        "


/-- Codepoints of the character class removed by the special-character regex in clean_text_for_tts (the mojibake emoji bytes as they appear in the source). -/
def ttsSpecialChars : List Char := [Char.ofNat 160, Char.ofNat 164, Char.ofNat 167, Char.ofNat 168, Char.ofNat 177, Char.ofNat 184, Char.ofNat 190, Char.ofNat 226, Char.ofNat 239, Char.ofNat 240, Char.ofNat 338, Char.ofNat 339, Char.ofNat 352, Char.ofNat 353, Char.ofNat 376, Char.ofNat 381, Char.ofNat 8211, Char.ofNat 8212, Char.ofNat 8216, Char.ofNat 8217, Char.ofNat 8220, Char.ofNat 8221, Char.ofNat 8222, Char.ofNat 8224, Char.ofNat 8230, Char.ofNat 8249, Char.ofNat 8482]
/-- The dictionary `self.translations` of `LanguageManager.load_translations`
(localization.py): language code to translation table, empty for an unknown
code (Python `dict.get(lang, {})`).  The optional JSON overlay directory is
absent in this deployment, so the built-in tables are the tables. -/
def translationsFor (lang : String) : List (String × String) :=
  if lang == "en" then englishTranslations
  else if lang == "ar" then arabicTranslations
  else if lang == "fr" then frenchTranslations
  else if lang == "es" then spanishTranslations
  else []

/-- Python `table.get(key)` on a translation table. -/
def lookupKey (table : List (String × String)) (key : String) : Option String :=
  (table.find? (fun p => p.1 == key)).map (fun p => p.2)

/-- Embeds `LanguageManager.get_text` (localization.py) without keyword arguments:
current-language lookup, then the `default` parameter, then the English
table with the key itself as last resort, then the key. -/
def get_text (lang key : String) (dflt : Option String) : String :=
  let t0 := lookupKey (translationsFor lang) key
  let t1 := match t0, dflt with
    | none, some d => some d
    | x, _ => x
  let t2 := match t1 with
    | none => if lang ≠ "en" then some ((lookupKey englishTranslations key).getD key) else none
    | some x => some x
  t2.getD key

/-- Embeds `LanguageManager.get_text` with a single keyword argument: the resolved
text has its `\x7bname\x7d` placeholder substituted (Python `str.format`;
formatting errors are swallowed by the source, and every call site in the
claims uses at most this one placeholder). -/
def get_text_fmt (lang key : String) (dflt : Option String) (argName argVal : String) : String :=
  (get_text lang key dflt).replace ("\x7b" ++ argName ++ "\x7d") argVal

/-- The language codes offered by the application (localization.py tables). -/
def supportedLanguages : List String := ["en", "ar", "fr", "es"]

/-- Keys of the English (base) translation table. -/
def englishKeys : List String := englishTranslations.map Prod.fst
/-- One PDF entry built by `DatabaseManager.load_student_database`
(database_manager.py, `pdf_data`). -/
structure PdfData where
  pdf_file : String
  programme : String
  coursework_type : String
  display_name : String
deriving Repr, DecidableEq

/-- One row of the student spreadsheet after the per-row conversions
`str(row['Student ID'])`, `int(row['Code'])` of the load loop. -/
structure Row where
  student_id : String
  code : Int
  programme : String
  module : String
  pdf_file : String
deriving Repr, DecidableEq

/-- A Python dictionary with string keys, embedded as a finite map. -/
def StrMap (α : Type) : Type := String → Option α

/-- The empty dictionary. -/
def StrMap.empty {α : Type} : StrMap α := fun _ => none

/-- Python `d[k] = v`. -/
def StrMap.set {α : Type} (m : StrMap α) (k : String) (v : α) : StrMap α :=
  fun k' => if k' = k then some v else m k'

/-- An entry of `student_database['students']`. -/
structure StudentRec where
  code : Int
  programme : String
  modules : StrMap (List PdfData)

/-- The `student_database` dictionary built by
`DatabaseManager.load_student_database`. -/
structure DB where
  students : StrMap StudentRec
  student_codes : StrMap Int
  student_modules : StrMap (StrMap (List PdfData))
  programme_modules : StrMap (StrMap (List PdfData))

/-- The empty `student_database` skeleton. -/
def emptyDB : DB :=
  { students := StrMap.empty
    student_codes := StrMap.empty
    student_modules := StrMap.empty
    programme_modules := StrMap.empty }

/-- The ordered pattern table of `DatabaseManager._extract_coursework_type`. -/
def courseworkPatterns : List (String × String) :=
  [("coursework1", "Coursework 1"),
   ("coursework2", "Coursework 2"),
   ("coursework3", "Coursework 3"),
   ("assignment1", "Assignment 1"),
   ("assignment2", "Assignment 2"),
   ("assignment3", "Assignment 3"),
   ("exam", "Exam Material"),
   ("lecture", "Lecture Notes"),
   ("reading", "Reading Material")]

/-- Embeds `DatabaseManager._extract_coursework_type`: first pattern contained in the
lowercased file name wins, else `'Course Materials'`. -/
def extract_coursework_type (pdf_filename : String) : String :=
  let lower := pyLower pdf_filename
  match courseworkPatterns.find? (fun p => pyContains lower p.1) with
  | some p => p.2
  | none => "Course Materials"

/-- Index of the last `'.'` in a character list, if any. -/
def lastDotIdx (cs : List Char) : Option Nat :=
  ((List.range cs.length).filter (fun i => cs.getD i ' ' == '.')).getLast?

/-- Python `pathlib.Path(p).stem`: final path component with its final suffix
removed (a suffix is a dot segment whose dot is neither the first nor the
last character of the name). -/
def pathStem (p : String) : String :=
  let base := (p.data.reverse.takeWhile (fun c => c ≠ '/')).reverse
  match lastDotIdx base with
  | some i => if 0 < i ∧ i < base.length - 1 then String.mk (base.take i) else String.mk base
  | none => String.mk base

/-- Embeds `DatabaseManager._format_display_name`: stem, underscores to spaces, each
whitespace-separated word capitalized, joined by single spaces. -/
def format_display_name (pdf_filename : String) : String :=
  let name := String.mk ((pathStem pdf_filename).data.map (fun c => if c = '_' then ' ' else c))
  String.intercalate " " ((pySplitWs name).map pyCapitalize)

/-- The `pdf_data` dictionary built for a row in the load loop. -/
def pdfOf (r : Row) : PdfData :=
  { pdf_file := r.pdf_file
    programme := r.programme
    coursework_type := extract_coursework_type r.pdf_file
    display_name := format_display_name r.pdf_file }

/-- Load-loop step 1: `if student_id not in student_database['students']`,
initialize the student entry, the `student_codes` entry and the empty
`student_modules` dictionary together. -/
def initStudent (db : DB) (r : Row) : DB :=
  if (db.students r.student_id).isSome then db
  else
    { db with
      students := db.students.set r.student_id
        { code := r.code, programme := r.programme, modules := StrMap.empty }
      student_codes := db.student_codes.set r.student_id r.code
      student_modules := db.student_modules.set r.student_id StrMap.empty }

/-- The local `student_database['student_modules'][student_id]` dictionary
of the load loop (empty when the student was just initialized). -/
def smOf (db : DB) (r : Row) : StrMap (List PdfData) :=
  (db.student_modules r.student_id).getD StrMap.empty

/-- The same dictionary after `if module not in ...: ... = []`. -/
def sm1Of (db : DB) (r : Row) : StrMap (List PdfData) :=
  if ((smOf db r) r.module).isSome then smOf db r else (smOf db r).set r.module []

/-- The appended list `student_modules[student_id][module] + [pdf_data]`. -/
def newListOf (db : DB) (r : Row) : List PdfData :=
  ((sm1Of db r) r.module).getD [] ++ [pdfOf r]

/-- Load-loop step 2: initialize the module list if missing, append the
row's `pdf_data`, and mirror the list into
`students[student_id]['modules'][module]` (in the source the two entries
alias the same list object; the mirror assignment keeps the pure model in
step with that aliasing at every loop boundary). -/
def addStudentPdf (db : DB) (r : Row) : DB :=
  let st := (db.students r.student_id).getD
    { code := r.code, programme := r.programme, modules := StrMap.empty }
  { db with
    student_modules :=
      db.student_modules.set r.student_id ((sm1Of db r).set r.module (newListOf db r))
    students := db.students.set r.student_id
      { st with modules := st.modules.set r.module (newListOf db r) } }

/-- The local `student_database['programme_modules'][programme]` dictionary
of the load loop. -/
def pmOf (db : DB) (r : Row) : StrMap (List PdfData) :=
  (db.programme_modules r.programme).getD StrMap.empty

/-- The same dictionary after `if module not in ...: ... = []`. -/
def pm1Of (db : DB) (r : Row) : StrMap (List PdfData) :=
  if ((pmOf db r) r.module).isSome then pmOf db r else (pmOf db r).set r.module []

/-- The programme-level list after the guarded append: the row's `pdf_data`
joins the list only when no entry with the same `pdf_file` is present. -/
def cur1Of (db : DB) (r : Row) : List PdfData :=
  let cur := ((pm1Of db r) r.module).getD []
  if cur.any (fun p => p.pdf_file == r.pdf_file) then cur else cur ++ [pdfOf r]

/-- Load-loop step 3: initialize `programme_modules[programme]` and its
module list if missing, then append the row's `pdf_data` only when no entry
with the same `pdf_file` is already present. -/
def addProgrammePdf (db : DB) (r : Row) : DB :=
  { db with
    programme_modules :=
      db.programme_modules.set r.programme ((pm1Of db r).set r.module (cur1Of db r)) }

/-- One iteration of the load loop of `load_student_database`. -/
def processRow (db : DB) (r : Row) : DB :=
  addProgrammePdf (addStudentPdf (initStudent db r) r) r

/-- Body of `DatabaseManager.load_student_database` on the success path, with
the spreadsheet I/O abstracted to the parsed row list (the file-missing and
missing-column branches concern the external file, not the loaded data). -/
def load_from_rows (rows : List Row) : Option DB × String :=
  (some (rows.foldl processRow emptyDB), "Database loaded successfully")

/-- The list under `programme_modules[prog][mod]`, empty when absent. -/
def progGet (db : DB) (prog mod : String) : List PdfData :=
  (((db.programme_modules prog).getD StrMap.empty) mod).getD []

/-- The list under `student_modules[sid][mod]`, empty when absent. -/
def studentGet (db : DB) (sid mod : String) : List PdfData :=
  (((db.student_modules sid).getD StrMap.empty) mod).getD []

/-- Embeds `DatabaseManager.validate_student_credentials` (database_manager.py).
The session's `student_database` is the first argument; a missing database is
the falsy branch.  `student_codes[student_id]` is read with a default that is
never used on databases produced by the loader, where the `students` and
`student_codes` domains coincide. -/
def validate_student_credentials (dbOpt : Option DB) (student_id code : String) :
    Bool × Option StudentRec × String :=
  match dbOpt with
  | none => (false, none, "Student database not loaded")
  | some db =>
    let sid := pyUpper (pyStrip student_id)
    match pyInt (pyStrip code) with
    | none => (false, none, "Code must be a number")
    | some c =>
      match db.students sid with
      | none => (false, none, "Student ID \x27" ++ sid ++ "\x27 not found in database")
      | some data =>
        let stored := (db.student_codes sid).getD 0
        if c ≠ stored then (false, none, "Invalid code for student " ++ sid)
        else (true, some data, "Authentication successful")

/-- The cache attached to a function by Streamlit's `st.cache_data`
decorator, together with a counter of underlying (file-reading) executions. -/
structure CacheEnv (α : Type) where
  cached : Option α
  loads : Nat

/-- Semantics of a call to an `st.cache_data`-decorated function within one
process: a hit returns the cached value, a miss runs the body once and
stores the result. -/
def cacheDataCall {α : Type} (f : Unit → α) (env : CacheEnv α) : α × CacheEnv α :=
  match env.cached with
  | some v => (v, env)
  | none =>
    let v := f ()
    (v, { cached := some v, loads := env.loads + 1 })

/-- Embeds `DatabaseManager.load_student_database` as deployed: the body
`load_from_rows` behind `st.cache_data`. -/
def load_student_database (rows : List Row) (env : CacheEnv (Option DB × String)) :
    (Option DB × String) × CacheEnv (Option DB × String) :=
  cacheDataCall (fun _ => load_from_rows rows) env
/-- Session field `st.session_state.available_modules`: initialized and reset to the empty
list, set to the authenticated student's modules dictionary on login. -/
inductive AvailModules where
  | emptyList : AvailModules
  | dict : StrMap (List PdfData) → AvailModules

/-- The `selected_module` dictionary built in
`ConversationFlows.render_module_selection`. -/
structure SelectedModule where
  module : String
  programme : String
  pdf_file : String
  coursework_type : String
  display_name : String
  is_multi_pdf : Bool
  all_pdfs : List PdfData

/-- A `coursework_options` entry of `render_coursework_selection`. -/
structure CourseworkOption where
  title : String
  description : String
  ctype : String

/-- The `current_document` dictionary of `render_chat_interface`. -/
structure CurrentDocument where
  content : String
  metadata : String
  module : SelectedModule

/-- A chat transcript entry (`st.session_state.messages`); timestamps are
modelled as naturals. -/
structure ChatMessage where
  role : String
  content : String
  timestamp : Nat

/-- The Streamlit session state of the application, with the fields
installed by `SessionManager.initialize_session_state` (session_manager.py). -/
structure SessionState where
  conversation_step : String
  student_id : Option String
  student_code : Option String
  student_data : Option StudentRec
  selected_path : Option String
  available_modules : AvailModules
  selected_module : Option SelectedModule
  selected_coursework : Option CourseworkOption
  current_document : Option CurrentDocument
  messages : List ChatMessage
  audio_enabled : Bool
  selected_voice : String
  audio_responses : StrMap (List Nat)
  error_message : Option String
  retry_count : Nat
  student_database : Option DB
  database_loaded : Bool
  selected_ethics_category : Option String
  ethics_document : Option String
  language : String

/-- Embeds `SessionManager.reset_conversation` (session_manager.py): the "New
session" reset. -/
def reset_conversation (s : SessionState) : SessionState :=
  { s with
    conversation_step := "welcome"
    student_id := none
    student_code := none
    student_data := none
    selected_path := none
    available_modules := AvailModules.emptyList
    selected_module := none
    selected_coursework := none
    current_document := none
    messages := []
    audio_responses := StrMap.empty
    error_message := none
    retry_count := 0
    selected_ethics_category := none
    ethics_document := none }

/-- The `next_clicked` handler of
`ConversationFlows.render_student_id_input` (conversation_flows.py lines
63-70).  The second component is the transient `st.error` banner shown
without a state change; `st.rerun` is implicit in returning the new state. -/
def render_student_id_submit (s : SessionState) (input : String) :
    SessionState × Option String :=
  if input ≠ "" ∧ pyStrip input ≠ "" then
    ({ s with
        student_id := some (pyUpper (pyStrip input))
        conversation_step := "code"
        error_message := none }, none)
  else
    (s, some (get_text s.language "enter_question" none))

/-- The `verify_clicked` handler of `ConversationFlows.render_code_input`
(conversation_flows.py lines 116-155): validate the submitted code against
the roster, on success store the credentials and advance, on failure store
the (possibly translated) message and bump `retry_count`.  The second
component is the transient `st.error` banner of the empty-input branch. -/
def render_code_submit (s : SessionState) (code : String) :
    SessionState × Option String :=
  if code ≠ "" ∧ pyStrip code ≠ "" then
    match validate_student_credentials s.student_database (s.student_id.getD "") code with
    | (true, student_data, _) =>
      ({ s with
          student_code := some code
          student_data := student_data
          available_modules :=
            match student_data with
            | some rec => AvailModules.dict rec.modules
            | none => AvailModules.emptyList
          error_message := none
          retry_count := 0
          conversation_step :=
            if s.selected_path = some "ethics" then "ethics_chat" else "module" }, none)
    | (false, _, message) =>
      let translated :=
        if pyContains message "not found" then
          get_text_fmt s.language "student_not_found" none "student_id" (s.student_id.getD "")
        else if pyContains message "Invalid code" then
          get_text_fmt s.language "invalid_code" none "student_id" (s.student_id.getD "")
        else message
      ({ s with
          error_message := some translated
          retry_count := s.retry_count + 1 }, none)
  else
    (s, some (get_text s.language "enter_ethics_question" none))

/-- The outcome of the OpenAI chat-completion call inside the `try` block of
the AI assistant: an exception, a response without choices, or the first
choice's message content. -/
def RemoteCompletion : Type := Except String (Option String)

/-- Embeds `AIAssistant.generate_coursework_response` (ai_assistant.py lines 51-95).
`clientConfigured` is `self.client is not None` (false when no API key is
set); the prompt construction feeds only the remote call, which is
abstracted by the `remote` outcome; every other step is embedded as written:
the guard chain, the choice check and the final `strip`. -/
def generate_coursework_response (clientConfigured : Bool) (lang : String)
    (question document_content : String) (remote : RemoteCompletion) : String :=
  if clientConfigured = false then get_text lang "api_key_missing" none
  else if document_content = "" then get_text lang "no_docs_error" none
  else if question = "" ∨ pyStrip question = "" then get_text lang "enter_question" none
  else
    match remote with
    | Except.error e =>
      get_text_fmt lang "response_error" (some ("Error generating response: " ++ e)) "error" e
    | Except.ok none =>
      get_text lang "no_response_generated" (some "No response generated from OpenAI")
    | Except.ok (some content) => pyStrip content
/-- Minimal-match search for a closing delimiter: the earliest position where
`close` occurs, with every character before it matching `'.'` (any character,
excluding newline unless `allowNl`, as under `re.DOTALL`).  Returns the
skipped content and the remainder after the delimiter. -/
def findDelim (close : List Char) (allowNl : Bool) : List Char → Option (List Char × List Char)
  | [] => if close.isPrefixOf ([] : List Char) then some ([], []) else none
  | c :: rest =>
    if close.isPrefixOf (c :: rest) then some ([], (c :: rest).drop close.length)
    else if allowNl = false ∧ c = '\n' then none
    else (findDelim close allowNl rest).map (fun p => (c :: p.1, p.2))

/-- Python `re.sub` for a delimiter-pair pattern `del (.*?) del`, replacing each
match by its content (`keep = true`) or by nothing, scanning left to right
exactly as `re.sub` does; `fuel` bounds the recursion by the list length. -/
def subPair (del : List Char) (keep allowNl : Bool) : Nat → List Char → List Char
  | 0, cs => cs
  | _ + 1, [] => []
  | fuel + 1, c :: rest =>
    if del.isPrefixOf (c :: rest) then
      match findDelim del allowNl ((c :: rest).drop del.length) with
      | some (content, after) =>
        (if keep then content else []) ++ subPair del keep allowNl fuel after
      | none => c :: subPair del keep allowNl fuel rest
    else c :: subPair del keep allowNl fuel rest

/-- The backquote character, written by code point. -/
def backquote : Char := Char.ofNat 96

/-- One `^#+\s*` removal at a line-start position (`re.MULTILINE`): drop the
hash run and the following greedy whitespace run; when that run ends with a
newline the next position is again a line start, so the anchor can match
there too. -/
def stripHeaderAt : Nat → List Char → List Char
  | 0, cs => cs
  | fuel + 1, cs =>
    if cs.head? = some '#' then
      let hs := cs.dropWhile (fun c => c == '#')
      let ws := hs.takeWhile pyIsSpace
      let rest := hs.dropWhile pyIsSpace
      if ws.getLast? = some '\n' then stripHeaderAt fuel rest else rest
    else cs

/-- Python `re.sub(r'^#+\s*', '', text, flags=re.MULTILINE)`: the anchor matches at
the start of the text and immediately after each newline. -/
def removeHeadersGo : Nat → List Char → List Char
  | 0, cs => cs
  | _ + 1, [] => []
  | fuel + 1, c :: rest =>
    if c = '\n' then c :: removeHeadersGo fuel (stripHeaderAt rest.length rest)
    else c :: removeHeadersGo fuel rest

/-- Header removal pass over the whole text. -/
def removeHeaders (cs : List Char) : List Char :=
  let start := stripHeaderAt cs.length cs
  removeHeadersGo start.length start

/-- Python `re.sub` for inline code: a backquote, at least one non-backquote
character, a backquote; the content is kept. -/
def subInlineCode : Nat → List Char → List Char
  | 0, cs => cs
  | _ + 1, [] => []
  | fuel + 1, c :: rest =>
    if c = backquote then
      match findDelim [backquote] true rest with
      | some (content, after) =>
        if content = [] then c :: subInlineCode fuel rest
        else content ++ subInlineCode fuel after
      | none => c :: subInlineCode fuel rest
    else c :: subInlineCode fuel rest

/-- Python `re.sub` for markdown links `[text](url)`: keep the link text; both the
text and the url parts must be nonempty runs avoiding their closers. -/
def subLinks : Nat → List Char → List Char
  | 0, cs => cs
  | _ + 1, [] => []
  | fuel + 1, c :: rest =>
    if c = '[' then
      match findDelim [']'] true rest with
      | some (text, after1) =>
        if text = [] then c :: subLinks fuel rest
        else
          match after1 with
          | '(' :: rest2 =>
            match findDelim [')'] true rest2 with
            | some (url, after2) =>
              if url = [] then c :: subLinks fuel rest
              else text ++ subLinks fuel after2
            | none => c :: subLinks fuel rest
          | _ => c :: subLinks fuel rest
      | none => c :: subLinks fuel rest
    else c :: subLinks fuel rest

/-- Python `re.sub(r'\n+', '. ', ...)`: each maximal newline run becomes a dot and
a space. -/
def newlineRunsToDots : Nat → List Char → List Char
  | 0, cs => cs
  | _ + 1, [] => []
  | fuel + 1, c :: rest =>
    if c = '\n' then '.' :: ' ' :: newlineRunsToDots fuel (rest.dropWhile (fun ch => ch == '\n'))
    else c :: newlineRunsToDots fuel rest

/-- Python `re.sub(r'\s+', ' ', ...)`: each maximal whitespace run becomes one
space. -/
def spaceRunsToSpace : Nat → List Char → List Char
  | 0, cs => cs
  | _ + 1, [] => []
  | fuel + 1, c :: rest =>
    if pyIsSpace c then ' ' :: spaceRunsToSpace fuel (rest.dropWhile pyIsSpace)
    else c :: spaceRunsToSpace fuel rest

/-- Embeds `AudioManager.clean_text_for_tts` (audio_manager.py lines 75-116): the
substitution pipeline in source order, then strip and final punctuation. -/
def clean_text_for_tts (text : String) : String :=
  if text = "" then ""
  else
    let cs := text.data
    let cs := subPair ['*', '*'] true false cs.length cs
    let cs := subPair ['*'] true false cs.length cs
    let cs := subPair ['_'] true false cs.length cs
    let cs := removeHeaders cs
    let cs := subPair [backquote, backquote, backquote] false true cs.length cs
    let cs := subInlineCode cs.length cs
    let cs := subLinks cs.length cs
    let cs := cs.filter (fun c => !(ttsSpecialChars.contains c))
    let cs := newlineRunsToDots cs.length cs
    let cs := spaceRunsToSpace cs.length cs
    let out := pyStrip (String.mk cs)
    if out ≠ "" ∧ out.data.getLast? ≠ some '.' ∧ out.data.getLast? ≠ some '!'
        ∧ out.data.getLast? ≠ some '?' then
      out ++ "."
    else out

/-- Embeds `AudioManager.generate_audio_response` (audio_manager.py lines 34-73),
observed through the text handed to the remote TTS call: `none` when no
client is configured or the text is empty/whitespace, otherwise the cleaned
text that becomes the `input` of `client.audio.speech.create`. -/
def generate_audio_response_sent (clientConfigured : Bool) (text : String) : Option String :=
  if clientConfigured = false then none
  else if text = "" ∨ pyStrip text = "" then none
  else some (clean_text_for_tts text)

/-- The base64 alphabet of RFC 4648, as used by Python `base64.b64encode`. -/
def b64Alphabet : List Char :=
  "ABCDEFGHIJKLMNOPQRSTUVWXYZabcdefghijklmnopqrstuvwxyz0123456789+/".data

/-- The alphabet character of a 6-bit value. -/
def b64Char (n : Nat) : Char := b64Alphabet.getD n 'A'

/-- The 6-bit value of an alphabet character. -/
def b64CharIndex (c : Char) : Option Nat := b64Alphabet.findIdx? (fun x => x == c)

/-- Python `base64.b64encode` on a byte list: three bytes become four characters,
with `=` padding for one- and two-byte tails. -/
def base64EncodeList : List Nat → List Char
  | [] => []
  | [b1] => [b64Char (b1 / 4), b64Char (b1 % 4 * 16), '=', '=']
  | [b1, b2] => [b64Char (b1 / 4), b64Char (b1 % 4 * 16 + b2 / 16), b64Char (b2 % 16 * 4), '=']
  | b1 :: b2 :: b3 :: rest =>
    b64Char (b1 / 4) :: b64Char (b1 % 4 * 16 + b2 / 16) ::
      b64Char (b2 % 16 * 4 + b3 / 64) :: b64Char (b3 % 64) :: base64EncodeList rest

/-- Python `base64.b64encode(...).decode()`. -/
def base64Encode (bs : List Nat) : String := String.mk (base64EncodeList bs)

/-- Base64 decoding, inverse of `base64EncodeList` on its image. -/
def base64DecodeList : List Char → Option (List Nat)
  | [] => some []
  | c1 :: c2 :: c3 :: c4 :: rest =>
    if c3 = '=' ∧ c4 = '=' ∧ rest = [] then
      match b64CharIndex c1, b64CharIndex c2 with
      | some n1, some n2 => some [n1 * 4 + n2 / 16]
      | _, _ => none
    else if c4 = '=' ∧ rest = [] then
      match b64CharIndex c1, b64CharIndex c2, b64CharIndex c3 with
      | some n1, some n2, some n3 => some [n1 * 4 + n2 / 16, n2 % 16 * 16 + n3 / 4]
      | _, _, _ => none
    else
      match b64CharIndex c1, b64CharIndex c2, b64CharIndex c3, b64CharIndex c4,
          base64DecodeList rest with
      | some n1, some n2, some n3, some n4, some tail =>
        some ([n1 * 4 + n2 / 16, n2 % 16 * 16 + n3 / 4, n3 % 4 * 64 + n4] ++ tail)
      | _, _, _, _, _ => none
  | _ => none

/-- Character membership in a string, via the underlying character list. -/
def strHasChar (s : String) (c : Char) : Bool := s.data.contains c

/-- Embeds `AudioManager.create_audio_player` (audio_manager.py lines 118-168):
empty bytes give the empty string, otherwise the fixed HTML with the base64
payload spliced in; the `key` argument is computed but never used in the
produced HTML, exactly as in the source. -/
def create_audio_player (audio_bytes : List Nat) (_key : Option String) : String :=
  if audio_bytes = [] then ""
  else audioPlayerPrefix ++ base64Encode audio_bytes ++ audioPlayerSuffix
/-- Sample spreadsheet rows used to instantiate theorems with hypotheses. -/
def sampleRows : List Row :=
  [{ student_id := "A1", code := 42, programme := "CS", module := "M1",
     pdf_file := "cw_coursework1.pdf" }]

/-- The roster loaded from the sample rows. -/
def sampleDB : DB := sampleRows.foldl processRow emptyDB

/-- A concrete session state on the student_id step. -/
def c2state : SessionState :=
  { conversation_step := "student_id"
    student_id := none
    student_code := none
    student_data := none
    selected_path := some "coursework"
    available_modules := AvailModules.emptyList
    selected_module := none
    selected_coursework := none
    current_document := none
    messages := []
    audio_enabled := true
    selected_voice := "alloy"
    audio_responses := StrMap.empty
    error_message := none
    retry_count := 0
    student_database := some sampleDB
    database_loaded := true
    selected_ethics_category := none
    ethics_document := none
    language := "en" }

/-- C2: on the student_id step, a submission that is non-empty after
trimming stores the trimmed, uppercased value as the session's student_id
and moves the step from student_id to code (clearing the stored error);
an empty or whitespace-only submission leaves the state unchanged and shows
a validation error banner. -/
theorem c2_student_id_step (s : SessionState) (input : String) :
    (pyStrip input ≠ "" →
      render_student_id_submit s input =
        ({ s with
            student_id := some (pyUpper (pyStrip input))
            conversation_step := "code"
            error_message := none }, none)) ∧
    (pyStrip input = "" →
      render_student_id_submit s input =
        (s, some (get_text s.language "enter_question" none))) := by
  constructor
  · intro h
    have hne : input ≠ "" := by
      intro he
      exact h (by simp [he, pyStrip])
    simp [render_student_id_submit, hne, h]
  · intro h
    simp [render_student_id_submit, h]

/-- C2 witness: submitting "  ab12  " from a concrete state stores "AB12"
and advances to the code step; submitting "   " changes nothing and shows
the enter_question banner. -/
theorem c2_student_id_step_witness :
    render_student_id_submit c2state "  ab12  " =
      ({ c2state with
          student_id := some (pyUpper (pyStrip "  ab12  "))
          conversation_step := "code"
          error_message := none }, none) ∧
    render_student_id_submit c2state "   " =
      (c2state, some (get_text c2state.language "enter_question" none)) :=
  ⟨(c2_student_id_step c2state "  ab12  ").1 (by decide),
   (c2_student_id_step c2state "   ").2 (by decide)⟩

/-- C5: within one process, calling the cached roster load twice returns
structurally equal results and does not execute the underlying spreadsheet
read a second time: the second call leaves the whole cache environment,
including its load counter, unchanged. -/
theorem c5_load_idempotent (rows : List Row) (env : CacheEnv (Option DB × String)) :
    (load_student_database rows (load_student_database rows env).2).1 =
        (load_student_database rows env).1 ∧
    (load_student_database rows (load_student_database rows env).2).2.loads =
        (load_student_database rows env).2.loads ∧
    (load_student_database rows (load_student_database rows env).2).2 =
        (load_student_database rows env).2 := by
  cases henv : env.cached <;>
    simp [load_student_database, cacheDataCall, henv]

/-- C6: "New session" resets the step to welcome and clears the
authentication fields, the module and coursework selections, the current
document, the transcript, the audio cache and the error state, while the
session's language code is exactly the one from before the reset. -/
theorem c6_reset_frame (s : SessionState) :
    (reset_conversation s).conversation_step = "welcome" ∧
    (reset_conversation s).student_id = none ∧
    (reset_conversation s).student_code = none ∧
    (reset_conversation s).student_data = none ∧
    (reset_conversation s).selected_path = none ∧
    (reset_conversation s).available_modules = AvailModules.emptyList ∧
    (reset_conversation s).selected_module = none ∧
    (reset_conversation s).selected_coursework = none ∧
    (reset_conversation s).current_document = none ∧
    (reset_conversation s).messages = [] ∧
    (reset_conversation s).audio_responses = StrMap.empty ∧
    (reset_conversation s).error_message = none ∧
    (reset_conversation s).retry_count = 0 ∧
    (reset_conversation s).language = s.language :=
  ⟨rfl, rfl, rfl, rfl, rfl, rfl, rfl, rfl, rfl, rfl, rfl, rfl, rfl, rfl⟩

/-- C9: for every supported language code and every key of the English
table, the translation lookup yields a non-empty string; and whenever a key
is absent from a non-English table, the lookup falls back to the English
entry for that key (with the key itself as last resort). -/
theorem c9_translations_complete :
    (supportedLanguages.all (fun lang =>
        englishKeys.all (fun k => !(get_text lang k none == "")))) = true ∧
    (∀ lang key, lang ≠ "en" → lookupKey (translationsFor lang) key = none →
        get_text lang key none = (lookupKey englishTranslations key).getD key) := by
  refine ⟨by decide, ?_⟩
  intro lang key hlang hmiss
  simp [get_text, hmiss, hlang]

/-- C9 witness: the Arabic lookup of a key absent from every table falls
back through the English table to the key itself. -/
theorem c9_translations_complete_witness :
    get_text "ar" "zz_absent_key" none =
      (lookupKey englishTranslations "zz_absent_key").getD "zz_absent_key" :=
  c9_translations_complete.2 "ar" "zz_absent_key" (by decide) (by decide)
/-- Stripping the empty string gives the empty string, so a non-empty strip
forces a non-empty input (the Python truthiness guard `s and s.strip()`). -/
theorem pyStrip_ne_imp (s : String) (h : pyStrip s ≠ "") : s ≠ "" := by
  intro he
  exact h (by simp [he, pyStrip])

/-- The key `response_error` is present in none of the translation tables,
so its resolution always goes through the `default` argument. -/
theorem response_error_absent (lang : String) :
    lookupKey (translationsFor lang) "response_error" = none := by
  unfold translationsFor
  repeat' split
  all_goals decide

/-- Resolving `get_text` on the table-less key `response_error` returns the supplied
default for every language. -/
theorem get_text_response_error (lang d : String) :
    get_text lang "response_error" (some d) = d := by
  simp [get_text, response_error_absent lang]

/-- C3: generate_coursework_response checks its preconditions in order and
answers without consulting the completion endpoint: an unconfigured client
gives the "not configured" message for every language, question, document
and remote outcome; an empty document gives the "no document" message; a
question that is empty after trimming gives the "empty question" message;
and a failing remote call is rendered as the templated error string built
from the default template (the key is in no table), never re-raised. -/
theorem c3_coursework_guards (lang question document : String) (remote : RemoteCompletion) :
    (generate_coursework_response false lang question document remote =
        get_text lang "api_key_missing" none) ∧
    (generate_coursework_response true lang question "" remote =
        get_text lang "no_docs_error" none) ∧
    (document ≠ "" → pyStrip question = "" →
      generate_coursework_response true lang question document remote =
        get_text lang "enter_question" none) ∧
    (∀ e, document ≠ "" → pyStrip question ≠ "" →
      generate_coursework_response true lang question document (Except.error e) =
        ("Error generating response: " ++ e).replace "\x7berror\x7d" e) := by
  refine ⟨rfl, rfl, ?_, ?_⟩
  · intro hd hq
    simp [generate_coursework_response, hd, hq]
  · intro e hd hq
    have hqe : question ≠ "" := pyStrip_ne_imp question hq
    simp [generate_coursework_response, hd, hq, hqe, get_text_fmt,
      get_text_response_error]

/-- C3 witness: with a configured client, a whitespace question over a
document yields the empty-question message, and a remote failure "boom"
yields the templated error string; with no client the not-configured message
is returned for an Arabic session. -/
theorem c3_coursework_guards_witness :
    (generate_coursework_response false "ar" "q" "doc" (Except.ok none) =
        get_text "ar" "api_key_missing" none) ∧
    (generate_coursework_response true "en" "  " "doc" (Except.ok none) =
        get_text "en" "enter_question" none) ∧
    (generate_coursework_response true "fr" "q" "doc" (Except.error "boom") =
        ("Error generating response: " ++ "boom").replace "\x7berror\x7d" "boom") :=
  ⟨(c3_coursework_guards "ar" "q" "doc" (Except.ok none)).1,
   (c3_coursework_guards "en" "  " "doc" (Except.ok none)).2.2.1 (by decide) (by decide),
   (c3_coursework_guards "fr" "q" "doc" (Except.error "boom")).2.2.2 "boom"
     (by decide) (by decide)⟩

/-- C4 counterexample: the claim says the text sent to the TTS call for
"**Bold** _text_ #Heading" is free of '#', but the header regex is anchored
at line starts (`re.MULTILINE` `^#+\s*`) and this '#' sits mid-line, so the
dispatched text still contains '#'. -/
theorem c4_counterexample :
    strHasChar ((generate_audio_response_sent true "**Bold** _text_ #Heading").getD "") '#'
      = true := by
  decide

/-- C4 (amended): for the input "**Bold** _text_ #Heading" the cleaning step
performed before dispatch removes every '*' and '_', and the text sent to
the TTS call is exactly "Bold text #Heading.": the mid-line '#' survives,
while a '#' at the start of a line (input "#Heading") is removed. -/
theorem c4_markdown_cleaning :
    generate_audio_response_sent true "**Bold** _text_ #Heading" =
      some "Bold text #Heading." ∧
    strHasChar "Bold text #Heading." '*' = false ∧
    strHasChar "Bold text #Heading." '_' = false ∧
    strHasChar "Bold text #Heading." '#' = true ∧
    strHasChar (clean_text_for_tts "#Heading") '#' = false := by
  refine ⟨?_, by decide, by decide, by decide, by decide⟩
  decide

/-- Each 6-bit value decodes back from its base64 alphabet character. -/
theorem b64CharIndex_b64Char : ∀ n : Nat, n < 64 → b64CharIndex (b64Char n) = some n := by
  decide

/-- Alphabet characters are never the padding character. -/
theorem b64Char_ne_pad : ∀ n : Nat, n < 64 → b64Char n ≠ '=' := by
  decide

/-- Base64 decoding inverts base64 encoding on byte lists. -/
theorem base64_roundtrip :
    ∀ bs : List Nat, (∀ b ∈ bs, b < 256) → base64DecodeList (base64EncodeList bs) = some bs
  | [], _ => rfl
  | [b1], h => by
    have hb1 : b1 < 256 := h b1 (by simp)
    have h1 := b64CharIndex_b64Char (b1 / 4) (by omega)
    have h2 := b64CharIndex_b64Char (b1 % 4 * 16) (by omega)
    simp [base64EncodeList, base64DecodeList, h1, h2]
    omega
  | [b1, b2], h => by
    have hb1 : b1 < 256 := h b1 (by simp)
    have hb2 : b2 < 256 := h b2 (by simp)
    have h1 := b64CharIndex_b64Char (b1 / 4) (by omega)
    have h2 := b64CharIndex_b64Char (b1 % 4 * 16 + b2 / 16) (by omega)
    have h3 := b64CharIndex_b64Char (b2 % 16 * 4) (by omega)
    have hp3 := b64Char_ne_pad (b2 % 16 * 4) (by omega)
    simp [base64EncodeList, base64DecodeList, h1, h2, h3, hp3]
    constructor <;> omega
  | b1 :: b2 :: b3 :: rest, h => by
    have hb1 : b1 < 256 := h b1 (by simp)
    have hb2 : b2 < 256 := h b2 (by simp)
    have hb3 : b3 < 256 := h b3 (by simp)
    have ih := base64_roundtrip rest (fun b hb => h b (by simp [hb]))
    have h1 := b64CharIndex_b64Char (b1 / 4) (by omega)
    have h2 := b64CharIndex_b64Char (b1 % 4 * 16 + b2 / 16) (by omega)
    have h3 := b64CharIndex_b64Char (b2 % 16 * 4 + b3 / 64) (by omega)
    have h4 := b64CharIndex_b64Char (b3 % 64) (by omega)
    have hp3 := b64Char_ne_pad (b2 % 16 * 4 + b3 / 64) (by omega)
    have hp4 := b64Char_ne_pad (b3 % 64) (by omega)
    simp [base64EncodeList, base64DecodeList, h1, h2, h3, h4, hp3, hp4, ih]
    refine ⟨by omega, by omega, by omega⟩

/-- C8: for non-empty audio bytes, the player HTML is the fixed markup with
exactly the base64 encoding of the bytes spliced into the data URL, and that
encoding decodes back to the original bytes: nothing is dropped or mutated. -/
theorem c8_audio_player (bytes : List Nat) (key : Option String)
    (hne : bytes ≠ []) (hbyte : ∀ b ∈ bytes, b < 256) :
    create_audio_player bytes key =
      audioPlayerPrefix ++ base64Encode bytes ++ audioPlayerSuffix ∧
    base64DecodeList (base64Encode bytes).data = some bytes := by
  constructor
  · simp [create_audio_player, hne]
  · simpa [base64Encode] using base64_roundtrip bytes hbyte

/-- C8 witness: the bytes of "Man" produce the player HTML around "TWFu",
which decodes back to the original bytes. -/
theorem c8_audio_player_witness :
    create_audio_player [77, 97, 110] none =
      audioPlayerPrefix ++ base64Encode [77, 97, 110] ++ audioPlayerSuffix ∧
    base64DecodeList (base64Encode [77, 97, 110]).data = some [77, 97, 110] :=
  c8_audio_player [77, 97, 110] none (by decide) (by decide)
/-- A non-numeral code fails validation with the fixed message, for every
database and student id. -/
theorem validate_nonnumeric (db : DB) (sid code : String)
    (h : pyInt (pyStrip code) = none) :
    validate_student_credentials (some db) sid code =
      (false, none, "Code must be a number") := by
  simp [validate_student_credentials, h]

/-- C1: with a loaded roster, validation of a (studentId, code) pair not
present in it always fails with the discriminating message: a non-numeral
code gives the validation-failure message (no exception), an unknown
normalized id gives the not-found message, a known id with a wrong code
gives the invalid-code message, and a success outcome forces the normalized
id to be present with exactly the stored code. -/
theorem c1_validate_credentials (db : DB) (student_id code : String) :
    (pyInt (pyStrip code) = none →
      validate_student_credentials (some db) student_id code =
        (false, none, "Code must be a number")) ∧
    (∀ c, pyInt (pyStrip code) = some c →
      db.students (pyUpper (pyStrip student_id)) = none →
      validate_student_credentials (some db) student_id code =
        (false, none,
          "Student ID \x27" ++ pyUpper (pyStrip student_id) ++ "\x27 not found in database")) ∧
    (∀ c r, pyInt (pyStrip code) = some c →
      db.students (pyUpper (pyStrip student_id)) = some r →
      c ≠ (db.student_codes (pyUpper (pyStrip student_id))).getD 0 →
      validate_student_credentials (some db) student_id code =
        (false, none, "Invalid code for student " ++ pyUpper (pyStrip student_id))) ∧
    ((validate_student_credentials (some db) student_id code).1 = true →
      (db.students (pyUpper (pyStrip student_id))).isSome ∧
      pyInt (pyStrip code) =
        some ((db.student_codes (pyUpper (pyStrip student_id))).getD 0)) := by
  refine ⟨?_, ?_, ?_, ?_⟩
  · intro h
    exact validate_nonnumeric db student_id code h
  · intro c hc hs
    simp [validate_student_credentials, hc, hs]
  · intro c r hc hs hne
    simp [validate_student_credentials, hc, hs, hne]
  · intro h
    rcases hc : pyInt (pyStrip code) with _ | c
    · rw [validate_nonnumeric db student_id code hc] at h
      simp at h
    · rcases hs : db.students (pyUpper (pyStrip student_id)) with _ | r
      · simp [validate_student_credentials, hc, hs] at h
      · by_cases hne : c = (db.student_codes (pyUpper (pyStrip student_id))).getD 0
        · refine ⟨by simp [hs], ?_⟩
          rw [hne]
        · simp [validate_student_credentials, hc, hs, hne] at h

/-- C1 witness: over the sample roster (student A1, code 42), the
non-numeral code "12AB", the unknown id "b9", and the wrong code "7" each
fail with their message, while the genuine pair satisfies the success
characterization. -/
theorem c1_validate_credentials_witness :
    validate_student_credentials (some sampleDB) "a1" "12AB" =
      (false, none, "Code must be a number") ∧
    validate_student_credentials (some sampleDB) "b9" "42" =
      (false, none,
        "Student ID \x27" ++ pyUpper (pyStrip "b9") ++ "\x27 not found in database") ∧
    validate_student_credentials (some sampleDB) " a1" "7" =
      (false, none, "Invalid code for student " ++ pyUpper (pyStrip " a1")) ∧
    ((sampleDB.students (pyUpper (pyStrip "a1"))).isSome ∧
      pyInt (pyStrip "42") =
        some ((sampleDB.student_codes (pyUpper (pyStrip "a1"))).getD 0)) :=
  ⟨(c1_validate_credentials sampleDB "a1" "12AB").1 (by decide),
   (c1_validate_credentials sampleDB "b9" "42").2.1 42 (by decide) rfl,
   (c1_validate_credentials sampleDB " a1" "7").2.2.1 7
     ((sampleDB.students (pyUpper (pyStrip " a1"))).getD
       { code := 0, programme := "", modules := StrMap.empty }) (by decide) rfl (by decide),
   (c1_validate_credentials sampleDB "a1" "42").2.2.2 rfl⟩

/-- A concrete session state on the code step, authenticated up to the id
"A1" of the sample roster. -/
def c7state : SessionState :=
  { conversation_step := "code"
    student_id := some "A1"
    student_code := none
    student_data := none
    selected_path := some "coursework"
    available_modules := AvailModules.emptyList
    selected_module := none
    selected_coursework := none
    current_document := none
    messages := []
    audio_enabled := true
    selected_voice := "alloy"
    audio_responses := StrMap.empty
    error_message := none
    retry_count := 0
    student_database := some sampleDB
    database_loaded := true
    selected_ethics_category := none
    ethics_document := none
    language := "en" }

/-- C7: on the code step with retryCount 0, submitting the non-numeric code
"12AB" for a student present in the roster is a validation failure: the
error message is stored, retryCount becomes 1, and the step stays code. -/
theorem c7_nonnumeric_code_retry (s : SessionState) (db : DB)
    (hdb : s.student_database = some db)
    (hretry : s.retry_count = 0)
    (hstep : s.conversation_step = "code")
    (_hstudent : (db.students (pyUpper (pyStrip (s.student_id.getD "")))).isSome = true) :
    render_code_submit s "12AB" =
      ({ s with error_message := some "Code must be a number", retry_count := 1 }, none) ∧
    (render_code_submit s "12AB").1.conversation_step = "code" := by
  have hv := validate_nonnumeric db (s.student_id.getD "") "12AB" (by decide)
  have hnf : pyContains "Code must be a number" "not found" = false := by decide
  have hic : pyContains "Code must be a number" "Invalid code" = false := by decide
  have hmain : render_code_submit s "12AB" =
      ({ s with error_message := some "Code must be a number", retry_count := 1 }, none) := by
    unfold render_code_submit
    rw [if_pos (by decide : ("12AB" : String) ≠ "" ∧ pyStrip "12AB" ≠ "")]
    rw [hdb, hv]
    simp [hnf, hic, hretry]
  exact ⟨hmain, by rw [hmain]; exact hstep⟩

/-- C7 witness: from the concrete code-step state over the sample roster,
submitting "12AB" stores the message, bumps retryCount to 1 and stays on
the code step. -/
theorem c7_nonnumeric_code_retry_witness :
    render_code_submit c7state "12AB" =
      ({ c7state with error_message := some "Code must be a number", retry_count := 1 },
        none) ∧
    (render_code_submit c7state "12AB").1.conversation_step = "code" :=
  c7_nonnumeric_code_retry c7state sampleDB rfl rfl rfl (by decide)
/-- Evaluating a dictionary update. -/
theorem strMap_set_apply {α : Type} (m : StrMap α) (k : String) (v : α) (k' : String) :
    StrMap.set m k v k' = if k' = k then some v else m k' := rfl

/-- Reading an update at its own key. -/
theorem set_get_eq {α : Type} (m : StrMap α) (k : String) (v : α) :
    StrMap.set m k v k = some v := by
  rw [strMap_set_apply, if_pos rfl]

/-- Reading an update at another key. -/
theorem set_get_ne {α : Type} (m : StrMap α) (k : String) (v : α) (k' : String)
    (h : k' ≠ k) : StrMap.set m k v k' = m k' := by
  rw [strMap_set_apply, if_neg h]

/-- The "initialize the list if missing" step of the load loop never changes
the defaulted view of any entry: a missing entry reads as the empty list
either way. -/
theorem initList_getD (inner : StrMap (List PdfData)) (k2 m : String) :
    ((if (inner k2).isSome then inner else inner.set k2 []) m).getD [] =
      (inner m).getD [] := by
  by_cases h : (inner k2).isSome
  · rw [if_pos h]
  · rw [if_neg h]
    by_cases hm : m = k2
    · subst hm
      rw [set_get_eq]
      cases hh : inner m
      · rfl
      · rw [hh] at h
        simp at h
    · rw [set_get_ne _ _ _ _ hm]

/-- The defaulted view of the loop-local student dictionary is `studentGet`. -/
theorem smOf_getD (db : DB) (r : Row) (m : String) :
    ((smOf db r) m).getD [] = studentGet db r.student_id m := rfl

/-- The initialization step keeps the defaulted student view. -/
theorem sm1Of_getD (db : DB) (r : Row) (m : String) :
    ((sm1Of db r) m).getD [] = studentGet db r.student_id m := by
  unfold sm1Of
  rw [initList_getD, smOf_getD]

/-- The appended per-student list is the old defaulted list plus the row's
pdf entry. -/
theorem newListOf_eq (db : DB) (r : Row) :
    newListOf db r = studentGet db r.student_id r.module ++ [pdfOf r] := by
  unfold newListOf
  rw [sm1Of_getD]

/-- The defaulted view of the loop-local programme dictionary is `progGet`. -/
theorem pmOf_getD (db : DB) (r : Row) (m : String) :
    ((pmOf db r) m).getD [] = progGet db r.programme m := rfl

/-- The initialization step keeps the defaulted programme view. -/
theorem pm1Of_getD (db : DB) (r : Row) (m : String) :
    ((pm1Of db r) m).getD [] = progGet db r.programme m := by
  unfold pm1Of
  rw [initList_getD, pmOf_getD]

/-- The guarded programme-level append in terms of `progGet`. -/
theorem cur1Of_eq (db : DB) (r : Row) :
    cur1Of db r =
      if (progGet db r.programme r.module).any (fun x => x.pdf_file == r.pdf_file)
        then progGet db r.programme r.module
        else progGet db r.programme r.module ++ [pdfOf r] := by
  unfold cur1Of
  rw [pm1Of_getD]

/-- Programme index of the student-initialization step. -/
theorem initStudent_pm (db : DB) (r : Row) :
    (initStudent db r).programme_modules = db.programme_modules := by
  unfold initStudent
  split <;> rfl

/-- Student fields of the programme-append step. -/
theorem addProgrammePdf_frame (db : DB) (r : Row) :
    (addProgrammePdf db r).students = db.students ∧
    (addProgrammePdf db r).student_modules = db.student_modules := ⟨rfl, rfl⟩

/-- Projection `progGet` only reads the programme index. -/
theorem progGet_congr (db db' : DB) (h : db'.programme_modules = db.programme_modules)
    (p m : String) : progGet db' p m = progGet db p m := by
  unfold progGet
  rw [h]

/-- Projection `studentGet` only reads the student module index. -/
theorem studentGet_congr (db db' : DB) (h : db'.student_modules = db.student_modules)
    (sid m : String) : studentGet db' sid m = studentGet db sid m := by
  unfold studentGet
  rw [h]

/-- Effect of the programme-append step on the programme index: the row's
(programme, module) entry gains the row's pdf exactly when its pdf_file is
not already listed, and every other entry is untouched. -/
theorem progGet_addProgrammePdf (db : DB) (r : Row) (p m : String) :
    progGet (addProgrammePdf db r) p m =
      if p = r.programme ∧ m = r.module then
        (if (progGet db r.programme r.module).any (fun x => x.pdf_file == r.pdf_file)
          then progGet db r.programme r.module
          else progGet db r.programme r.module ++ [pdfOf r])
      else progGet db p m := by
  have hfield : (addProgrammePdf db r).programme_modules =
      db.programme_modules.set r.programme ((pm1Of db r).set r.module (cur1Of db r)) := rfl
  unfold progGet
  rw [hfield]
  by_cases hp : p = r.programme
  · subst hp
    rw [set_get_eq, Option.getD_some]
    by_cases hm : m = r.module
    · subst hm
      have hand : r.programme = r.programme ∧ r.module = r.module := ⟨rfl, rfl⟩
      rw [set_get_eq, Option.getD_some, if_pos hand]
      exact cur1Of_eq db r
    · have hand : ¬(r.programme = r.programme ∧ m = r.module) := fun hc => hm hc.2
      rw [set_get_ne _ _ _ _ hm, if_neg hand]
      exact pm1Of_getD db r m
  · have hand : ¬(p = r.programme ∧ m = r.module) := fun hc => hp hc.1
    rw [set_get_ne _ _ _ _ hp, if_neg hand]

/-- The per-programme pdf lists keep pairwise distinct `pdf_file` values
across one load-loop iteration. -/
theorem progNodup_step (db : DB) (r : Row)
    (h : ∀ p m, ((progGet db p m).map (fun x => x.pdf_file)).Nodup) :
    ∀ p m, ((progGet (processRow db r) p m).map (fun x => x.pdf_file)).Nodup := by
  intro p m
  have hframe : (addStudentPdf (initStudent db r) r).programme_modules =
      db.programme_modules := by
    rw [show (addStudentPdf (initStudent db r) r).programme_modules =
        (initStudent db r).programme_modules from rfl, initStudent_pm]
  rw [show processRow db r = addProgrammePdf (addStudentPdf (initStudent db r) r) r from rfl,
    progGet_addProgrammePdf,
    progGet_congr db _ hframe, progGet_congr db _ hframe]
  split_ifs with hpm hany
  · exact h r.programme r.module
  · rw [List.map_append, List.nodup_append]
    refine ⟨h r.programme r.module, List.nodup_singleton _, ?_⟩
    intro x hx hx1
    simp only [List.map_cons, List.map_nil, List.mem_singleton] at hx1
    subst hx1
    rw [List.any_eq_true] at hany
    rcases List.mem_map.mp hx with ⟨y, hy, hyx⟩
    exact hany ⟨y, hy, by simp [hyx, pdfOf]⟩
  · exact h p m

/-- The loader invariant that `students` and `student_modules` are populated
for the same ids (both are written together in the initialization step). -/
def dbWellFormed (db : DB) : Prop :=
  ∀ sid, db.students sid = none → db.student_modules sid = none

/-- The empty database is well formed. -/
theorem wf_empty : dbWellFormed emptyDB := fun _ _ => rfl

/-- Student fields after initialization at other keys. -/
theorem initStudent_students (db : DB) (r : Row) (sid : String) (hs : sid ≠ r.student_id) :
    (initStudent db r).students sid = db.students sid ∧
    (initStudent db r).student_modules sid = db.student_modules sid := by
  unfold initStudent
  split
  · exact ⟨rfl, rfl⟩
  · dsimp only
    rw [set_get_ne _ _ _ _ hs, set_get_ne _ _ _ _ hs]
    exact ⟨rfl, rfl⟩

/-- One load-loop iteration preserves well-formedness. -/
theorem wf_step (db : DB) (r : Row) (h : dbWellFormed db) :
    dbWellFormed (processRow db r) := by
  intro sid hnone
  rw [show processRow db r = addProgrammePdf (addStudentPdf (initStudent db r) r) r from rfl,
    (addProgrammePdf_frame _ r).1] at hnone
  rw [show processRow db r = addProgrammePdf (addStudentPdf (initStudent db r) r) r from rfl,
    (addProgrammePdf_frame _ r).2]
  by_cases hs : sid = r.student_id
  · subst hs
    unfold addStudentPdf at hnone
    dsimp only at hnone
    rw [set_get_eq] at hnone
    exact absurd hnone (by simp)
  · unfold addStudentPdf at hnone ⊢
    dsimp only at hnone ⊢
    rw [set_get_ne _ _ _ _ hs] at hnone ⊢
    rw [(initStudent_students db r sid hs).2]
    exact h sid (by rw [← (initStudent_students db r sid hs).1]; exact hnone)

/-- On well-formed databases, the defaulted view of the row student's module
lists is unchanged by the initialization step. -/
theorem initStudent_getD (db : DB) (r : Row) (hwf : dbWellFormed db) (m : String) :
    ((((initStudent db r).student_modules r.student_id).getD StrMap.empty) m).getD [] =
      studentGet db r.student_id m := by
  unfold initStudent studentGet
  by_cases h : (db.students r.student_id).isSome
  · rw [if_pos h]
  · rw [if_neg h]
    have hnone : db.students r.student_id = none := by
      cases hh : db.students r.student_id
      · rfl
      · rw [hh] at h
        simp at h
    dsimp only
    rw [hwf _ hnone, set_get_eq]
    rfl

/-- On well-formed databases, initialization does not change any `studentGet`
view. -/
theorem studentGet_initStudent (db : DB) (r : Row) (hwf : dbWellFormed db)
    (sid m : String) : studentGet (initStudent db r) sid m = studentGet db sid m := by
  by_cases hs : sid = r.student_id
  · subst hs
    exact initStudent_getD db r hwf m
  · unfold studentGet
    rw [(initStudent_students db r sid hs).2]

/-- Effect of the append step on a per-student module list: the row's
(student, module) list gains exactly the row's pdf entry, every other list
is untouched. -/
theorem studentGet_addStudentPdf (db : DB) (r : Row) (sid m : String) :
    studentGet (addStudentPdf db r) sid m =
      if r.student_id = sid ∧ r.module = m then studentGet db sid m ++ [pdfOf r]
      else studentGet db sid m := by
  have hfield : (addStudentPdf db r).student_modules =
      db.student_modules.set r.student_id ((sm1Of db r).set r.module (newListOf db r)) := rfl
  unfold studentGet
  rw [hfield]
  by_cases hs : r.student_id = sid
  · subst hs
    rw [set_get_eq, Option.getD_some]
    by_cases hm : r.module = m
    · subst hm
      have hand : r.student_id = r.student_id ∧ r.module = r.module := ⟨rfl, rfl⟩
      rw [set_get_eq, Option.getD_some, if_pos hand]
      exact newListOf_eq db r
    · have hand : ¬(r.student_id = r.student_id ∧ r.module = m) := fun hc => hm hc.2
      rw [set_get_ne _ _ _ _ (fun hc => hm hc.symm), if_neg hand]
      exact sm1Of_getD db r m
  · have hand : ¬(r.student_id = sid ∧ r.module = m) := fun hc => hs hc.1
    rw [set_get_ne _ _ _ _ (fun hc => hs hc.symm), if_neg hand]

/-- Effect of one load-loop iteration on a per-student module list (on
well-formed databases). -/
theorem studentGet_step (db : DB) (r : Row) (hwf : dbWellFormed db) (sid m : String) :
    studentGet (processRow db r) sid m =
      if r.student_id = sid ∧ r.module = m then studentGet db sid m ++ [pdfOf r]
      else studentGet db sid m := by
  rw [show studentGet (processRow db r) sid m =
      studentGet (addStudentPdf (initStudent db r) r) sid m from
    studentGet_congr (addStudentPdf (initStudent db r) r) (processRow db r)
      (addProgrammePdf_frame _ r).2 sid m]
  rw [studentGet_addStudentPdf (initStudent db r) r sid m,
    studentGet_initStudent db r hwf sid m]

/-- Folding the load loop appends, to each per-student module list, one
`pdf_data` entry per matching spreadsheet row, in row order. -/
theorem studentGet_foldl (rows : List Row) (acc : DB) (hwf : dbWellFormed acc)
    (sid m : String) :
    studentGet (rows.foldl processRow acc) sid m =
      studentGet acc sid m ++
        (rows.filter (fun r => r.student_id == sid && r.module == m)).map pdfOf := by
  induction rows generalizing acc with
  | nil => simp
  | cons r rest ih =>
    rw [List.foldl_cons, ih (processRow acc r) (wf_step acc r hwf),
      studentGet_step acc r hwf sid m, List.filter_cons]
    by_cases h : r.student_id = sid ∧ r.module = m
    · rw [if_pos h, if_pos (by simp [h.1, h.2])]
      simp
    · rw [if_neg h, if_neg (by
        simp only [Bool.and_eq_true, beq_iff_eq]
        exact h)]

/-- Folding the load loop preserves well-formedness. -/
theorem wf_foldl (rows : List Row) (acc : DB) (hwf : dbWellFormed acc) :
    dbWellFormed (rows.foldl processRow acc) := by
  induction rows generalizing acc with
  | nil => exact hwf
  | cons r rest ih => exact ih (processRow acc r) (wf_step acc r hwf)

/-- Folding the load loop keeps every per-programme pdf list free of
duplicate `pdf_file` values. -/
theorem progNodup_foldl (rows : List Row) (acc : DB)
    (h : ∀ p m, ((progGet acc p m).map (fun x => x.pdf_file)).Nodup) :
    ∀ p m, ((progGet (rows.foldl processRow acc) p m).map (fun x => x.pdf_file)).Nodup := by
  induction rows generalizing acc with
  | nil => exact h
  | cons r rest ih => exact ih (processRow acc r) (progNodup_step acc r h)

/-- C10: after the roster load, every programme-level module list carries
pairwise distinct pdf_file values (duplicates across students are collapsed),
while each per-student module list carries exactly one entry per matching
spreadsheet row, with no such deduplication. -/
theorem c10_load_dedup (rows : List Row) (prog mod sid : String) :
    (((progGet ((load_from_rows rows).1.getD emptyDB) prog mod).map
        (fun p => p.pdf_file)).Nodup) ∧
    ((studentGet ((load_from_rows rows).1.getD emptyDB) sid mod).length =
      (rows.filter (fun r => r.student_id == sid && r.module == mod)).length) := by
  have hload : (load_from_rows rows).1.getD emptyDB = rows.foldl processRow emptyDB := rfl
  rw [hload]
  constructor
  · exact progNodup_foldl rows emptyDB
      (fun _ _ => by simp [progGet, emptyDB, StrMap.empty]) prog mod
  · rw [studentGet_foldl rows emptyDB wf_empty sid mod]
    simp [studentGet, emptyDB, StrMap.empty]
